import Mathlib

/-!
Verification of the Dirflow2 request-handling pipeline (server_pythonver).

This file shallowly embeds the four core components described in the
specification — the command validator, the conversation context manager,
the agent dispatcher and the response builder — directly from the Python
sources under src/server_pythonver, and proves or refutes the frozen
claims about them.

Python values that flow through the pipeline (decoded JSON, command
dicts, context blobs) are modelled by the inductive type PyVal below.
Python exceptions are modelled by Except String; a function that can
raise returns Except String A, and a try/except block is an explicit
match on the Except value. Machine-level aspects (wall-clock timestamps,
logging via print) are outside the embedding: timestamps are passed in as
an explicit argument where a structure stores one, and print calls are
dropped (they do not affect control flow or results, except where a
formatting expression itself could raise, which is noted inline).
-/

/-- A Python value as it appears in this pipeline: the result of
json.loads, a command dict, a context entry.  Numbers keep Python's
int/float split: int carries the integer, num carries a decimal mantissa
and power-of-ten exponent for non-integer JSON numbers (their arithmetic
is never used by the embedded code, only their truthiness). -/
inductive PyVal where
  | none : PyVal
  | bool (b : Bool) : PyVal
  | int (n : Int) : PyVal
  | num (mantissa : Int) (exp10 : Int) : PyVal
  | str (s : String) : PyVal
  | list (elems : List PyVal) : PyVal
  | dict (entries : List (String × PyVal)) : PyVal

mutual

/-- Structural equality on PyVal, mirroring Python == on these shapes. -/
def PyVal.beq : PyVal → PyVal → Bool
  | PyVal.none, PyVal.none => true
  | PyVal.bool a, PyVal.bool b => a == b
  | PyVal.int a, PyVal.int b => a == b
  | PyVal.num a b, PyVal.num c d => a == c && b == d
  | PyVal.str a, PyVal.str b => a == b
  | PyVal.list a, PyVal.list b => PyVal.beqList a b
  | PyVal.dict a, PyVal.dict b => PyVal.beqDict a b
  | _, _ => false

/-- Elementwise equality for lists of PyVal. -/
def PyVal.beqList : List PyVal → List PyVal → Bool
  | [], [] => true
  | a :: as, b :: bs => PyVal.beq a b && PyVal.beqList as bs
  | _, _ => false

/-- Entrywise equality for dict entry lists. -/
def PyVal.beqDict : List (String × PyVal) → List (String × PyVal) → Bool
  | [], [] => true
  | (ka, va) :: as, (kb, vb) :: bs => ka == kb && PyVal.beq va vb && PyVal.beqDict as bs
  | _, _ => false

end

instance : BEq PyVal := ⟨PyVal.beq⟩

mutual

/-- Python str() of a value: strings unquoted, containers via repr. -/
def PyVal.pyStr : PyVal → String
  | PyVal.str s => s
  | v => PyVal.pyRepr v

/-- Python repr() of a value (best effort: float formatting is
approximated as mantissa and exponent; no embedded code depends on the
exact text of a repr, it only flows into log-style warning strings). -/
def PyVal.pyRepr : PyVal → String
  | PyVal.none => "None"
  | PyVal.bool true => "True"
  | PyVal.bool false => "False"
  | PyVal.int n => toString n
  | PyVal.num m e => toString m ++ "e" ++ toString e
  | PyVal.str s => "\x27" ++ s ++ "\x27"
  | PyVal.list xs => "[" ++ PyVal.pyReprList xs ++ "]"
  | PyVal.dict kvs => "\x7b" ++ PyVal.pyReprDict kvs ++ "\x7d"

/-- Comma-joined reprs of list elements. -/
def PyVal.pyReprList : List PyVal → String
  | [] => ""
  | [x] => PyVal.pyRepr x
  | x :: rest => PyVal.pyRepr x ++ ", " ++ PyVal.pyReprList rest

/-- Comma-joined reprs of dict entries. -/
def PyVal.pyReprDict : List (String × PyVal) → String
  | [] => ""
  | [(k, v)] => "\x27" ++ k ++ "\x27: " ++ PyVal.pyRepr v
  | (k, v) :: rest => "\x27" ++ k ++ "\x27: " ++ PyVal.pyRepr v ++ ", " ++ PyVal.pyReprDict rest

end

/-- Python truthiness for the value shapes used in the pipeline. -/
def pyTruthy : PyVal → Bool
  | PyVal.none => false
  | PyVal.bool b => b
  | PyVal.int n => n != 0
  | PyVal.num m _ => m != 0
  | PyVal.str s => s != ""
  | PyVal.list xs => !xs.isEmpty
  | PyVal.dict kvs => !kvs.isEmpty

/-- Lookup in a dict entry list; the last binding of a key wins, matching
how Python dicts built from JSON keep the last duplicate key. -/
def dictLookup (kvs : List (String × PyVal)) (k : String) : Option PyVal :=
  (kvs.reverse.find? (fun kv => kv.fst == k)).map (fun kv => kv.snd)

/-- Python d.get(k): the value if the key is present, else None.  Only
applied after the code has established the value is a dict; on non-dicts
the embedded callers never reach this (guards are modelled explicitly
where the source could actually crash). -/
def pyGet (cmd : PyVal) (k : String) : PyVal :=
  match cmd with
  | PyVal.dict kvs => (dictLookup kvs k).getD PyVal.none
  | _ => PyVal.none

/-- Python d.get(k, default). -/
def pyGetD (cmd : PyVal) (k : String) (dflt : PyVal) : PyVal :=
  match cmd with
  | PyVal.dict kvs => (dictLookup kvs k).getD dflt
  | _ => PyVal.none

/-- Python (k in d) key-presence test on a dict value. -/
def pyHasKey (cmd : PyVal) (k : String) : Bool :=
  match cmd with
  | PyVal.dict kvs => kvs.any (fun kv => kv.fst == k)
  | _ => false

/-- Occurrence of a character pattern anywhere in a character list.
The embedding implements its string primitives over character lists by
structural recursion (the standard library versions run on byte-indexed
substrings through well-founded recursion, which the kernel cannot
evaluate). -/
def subListAt (pat : List Char) : List Char → Bool
  | [] => pat.isPrefixOf []
  | c :: rest => pat.isPrefixOf (c :: rest) || subListAt pat rest

/-- Python substring test (pat in s) for strings: true when pat occurs in
s; the empty pattern is contained in every string. -/
def strContains (s pat : String) : Bool :=
  subListAt pat.toList s.toList

/-- Python str.strip(): drop leading and trailing whitespace (Python also
strips a few exotic unicode spaces no embedded string contains). -/
def pyStrip (s : String) : String :=
  String.mk (((s.toList.dropWhile Char.isWhitespace).reverse.dropWhile
    Char.isWhitespace).reverse)

/-- Python str.lower(), ASCII range (the embedded keyword sets are ASCII
and Japanese, on which Python lower acts the same way). -/
def pyLower (s : String) : String :=
  String.mk (s.toList.map Char.toLower)

/-- Python str.startswith. -/
def pyStartsWith (s pat : String) : Bool :=
  pat.toList.isPrefixOf s.toList

/-- Python len() for the sized value shapes; raises TypeError on
unsized values such as None, exactly where the source would. -/
def pyLen : PyVal → Except String Nat
  | PyVal.str s => Except.ok s.length
  | PyVal.list xs => Except.ok xs.length
  | PyVal.dict kvs => Except.ok kvs.length
  | PyVal.none => Except.error "TypeError: object of type NoneType has no len()"
  | PyVal.bool _ => Except.error "TypeError: object of type bool has no len()"
  | PyVal.int _ => Except.error "TypeError: object of type int has no len()"
  | PyVal.num _ _ => Except.error "TypeError: object of type float has no len()"

/-- Sequencing of two Python statements in exception context: run the
first; if it raises, propagate, else run the second (the semicolon of a
Python method body). -/
def pySeq {a : Type} (x : Except String Unit) (rest : Except String a) : Except String a :=
  match x with
  | Except.ok _ => rest
  | Except.error e => Except.error e

/-- Binding of an intermediate Python value in exception context. -/
def pyBind {a b : Type} (x : Except String a) (f : a -> Except String b) : Except String b :=
  match x with
  | Except.ok v => f v
  | Except.error e => Except.error e

/-! ## CommandValidator (src/server_pythonver/validation/command_validator.py)

The validator is a stateless rule gate: validate(command) either returns
True or raises ValueError.  It is embedded as an Except-valued function;
each private check below mirrors one method of the CommandValidator
class, in source order, with the statement sequencing written through
pySeq/pyBind.  The print calls (warning logs) are dropped. -/

/-- The action allow-list (CommandValidator.allowed_actions). -/
def allowedActions : List String :=
  ["create_file", "create_directory", "delete_file", "copy_file", "move_file",
   "read_file", "edit_file", "list_files",
   "batch_delete", "batch_copy", "batch_move",
   "web_search"]

/-- The required-field schema (CommandValidator.required_fields); unknown
actions map to [], which like Python dict.get returning None is falsy and
makes the required-field check a no-op. -/
def requiredFieldsFor : PyVal -> List String
  | PyVal.str "create_file" => ["path"]
  | PyVal.str "create_directory" => ["path"]
  | PyVal.str "delete_file" => ["path"]
  | PyVal.str "copy_file" => ["source", "destination"]
  | PyVal.str "move_file" => ["source", "destination"]
  | PyVal.str "read_file" => ["path"]
  | PyVal.str "edit_file" => ["path", "content"]
  | PyVal.str "list_files" => []
  | PyVal.str "batch_delete" => ["paths"]
  | PyVal.str "batch_copy" => ["sources", "destination"]
  | PyVal.str "batch_move" => ["sources", "destination"]
  | PyVal.str "web_search" => ["query"]
  | _ => []

/-- The dangerous-action set (CommandValidator.dangerous_actions). -/
def dangerousActions : List String :=
  ["delete_file", "batch_delete", "move_file", "batch_move"]

/-- CommandValidator._validate_action. -/
def validateAction (a : PyVal) : Except String Unit :=
  match a with
  | PyVal.str s =>
      if s == "" then Except.error "アクションが指定されていません"
      else if allowedActions.contains s then Except.ok ()
      else Except.error ("未サポートのアクション: " ++ s)
  | _ => Except.error "アクションが指定されていません"

/-- CommandValidator.is_search_command. -/
def isSearchCommand (a : PyVal) : Bool :=
  match a with
  | PyVal.str s => s == "web_search"
  | _ => false

/-- The traversal/system-path denylist in _validate_single_path. -/
def dangerousPatterns : List String :=
  ["..", "~", "/etc", "/var", "/usr", "/bin", "/sbin", "/root",
   "C:\\Windows", "C:\\Program"]

/-- The body of _validate_single_path once the value is known to be a
string.  The pattern loop raises on the first matching pattern, modelled
by List.find?; the absolute-path branch only prints a warning and is
dropped; the final check rejects values that are empty after
stripping. -/
def validateSinglePathStr (s : String) (fieldName : String) : Except String Unit :=
  match dangerousPatterns.find? (fun pat => strContains s pat || pyStartsWith s pat) with
  | some pat => Except.error ("安全でないパス: " ++ s ++ " (危険なパターン: " ++ pat ++ ")")
  | Option.none =>
      if pyStrip s == "" then Except.error (fieldName ++ "が空です")
      else Except.ok ()

/-- CommandValidator._validate_single_path. -/
def validateSinglePath (p : PyVal) (fieldName : String) : Except String Unit :=
  match p with
  | PyVal.str s => validateSinglePathStr s fieldName
  | _ => Except.error (fieldName ++ "は文字列である必要があります")

/-- One iteration of the loop in _validate_paths: a path-bearing field is
checked only when its value is truthy. -/
def validatePathField (cmd : PyVal) (field : String) : Except String Unit :=
  if pyTruthy (pyGet cmd field) then validateSinglePath (pyGet cmd field) field
  else Except.ok ()

/-- CommandValidator._validate_paths over the fixed field list
[path, source, destination]. -/
def validatePaths (cmd : PyVal) : Except String Unit :=
  pySeq (validatePathField cmd "path")
    (pySeq (validatePathField cmd "source")
      (validatePathField cmd "destination"))

/-- The element loop of _validate_batch_paths, carrying the running index
used in the per-element field name. -/
def validateBatchElems (field : String) : Nat -> List PyVal -> Except String Unit
  | _, [] => Except.ok ()
  | i, p :: rest =>
      pySeq (validateSinglePath p (field ++ "[" ++ toString i ++ "]"))
        (validateBatchElems field (i + 1) rest)

/-- The list branch of the _validate_batch_paths loop body: empty check,
element loop, then the 100-entry cap, in source order (the cap is tested
after the elements are individually validated). -/
def validateBatchListField (field : String) (xs : List PyVal) : Except String Unit :=
  pySeq (if xs.isEmpty then Except.error (field ++ "が空の配列です") else Except.ok ())
    (pySeq (validateBatchElems field 0 xs)
      (if xs.length > 100 then
        Except.error ("一括操作の上限（100個）を超えています: " ++ toString xs.length ++ "個")
      else Except.ok ()))

/-- One iteration of the loop in _validate_batch_paths: a truthy batch
field must be a list, whose entries are then checked. -/
def validateBatchField (cmd : PyVal) (field : String) : Except String Unit :=
  if pyTruthy (pyGet cmd field) then
    match pyGet cmd field with
    | PyVal.list xs => validateBatchListField field xs
    | _ => Except.error (field ++ "は配列である必要があります")
  else Except.ok ()

/-- CommandValidator._validate_batch_paths over the fixed field list
[paths, sources]. -/
def validateBatchPaths (cmd : PyVal) : Except String Unit :=
  pySeq (validateBatchField cmd "paths") (validateBatchField cmd "sources")

/-- The recognized-option checks of _validate_search_options, in source
order.  Python treats bool as a subtype of int, so a bool maxResults is
range-checked as 1 or 0. -/
def validateSearchOptions (opts : PyVal) : Except String Unit :=
  pySeq (if pyHasKey opts "maxResults" then
      match pyGet opts "maxResults" with
      | PyVal.int n =>
          if 1 <= n && n <= 20 then Except.ok ()
          else Except.error "web_search: maxResultsは1-20の整数である必要があります"
      | PyVal.bool b =>
          if b then Except.ok ()
          else Except.error "web_search: maxResultsは1-20の整数である必要があります"
      | _ => Except.error "web_search: maxResultsは1-20の整数である必要があります"
    else Except.ok ())
  (pySeq (if pyHasKey opts "provider" then
      match pyGet opts "provider" with
      | PyVal.str s =>
          if ["auto", "tavily", "google", "duckduckgo"].contains s then Except.ok ()
          else Except.error ("web_search: 無効なprovider: " ++ s)
      | v => Except.error ("web_search: 無効なprovider: " ++ v.pyStr)
    else Except.ok ())
  (pySeq (if pyHasKey opts "language" then
      match pyGet opts "language" with
      | PyVal.str s =>
          if s.length == 2 then Except.ok ()
          else Except.error "web_search: languageは2文字の言語コードである必要があります"
      | _ => Except.error "web_search: languageは2文字の言語コードである必要があります"
    else Except.ok ())
  (pySeq (if pyHasKey opts "region" then
      match pyGet opts "region" with
      | PyVal.str s =>
          if s.length == 2 then Except.ok ()
          else Except.error "web_search: regionは2文字の地域コードである必要があります"
      | _ => Except.error "web_search: regionは2文字の地域コードである必要があります"
    else Except.ok ())
  (pySeq (if pyHasKey opts "filterDomains" then
      match pyGet opts "filterDomains" with
      | PyVal.list _ => Except.ok ()
      | _ => Except.error "web_search: filterDomainsは配列である必要があります"
    else Except.ok ())
  (if pyHasKey opts "excludeDomains" then
      match pyGet opts "excludeDomains" with
      | PyVal.list _ => Except.ok ()
      | _ => Except.error "web_search: excludeDomainsは配列である必要があります"
    else Except.ok ())))))

/-- CommandValidator._validate_web_search_command: query must be a truthy
string, non-blank after stripping and at most 500 characters; options, if
truthy, must be a dict and have valid recognized keys. -/
def validateWebSearchCommand (cmd : PyVal) : Except String Unit :=
  pySeq (match pyGet cmd "query" with
    | PyVal.str s =>
        if s == "" then Except.error "web_search: queryは文字列である必要があります"
        else if pyStrip s == "" then Except.error "web_search: queryが空です"
        else if s.length > 500 then Except.error "web_search: クエリが長すぎます（500文字以内）"
        else Except.ok ()
    | _ => Except.error "web_search: queryは文字列である必要があります")
  (if pyTruthy (pyGet cmd "options") then
    match pyGet cmd "options" with
    | PyVal.dict _ => validateSearchOptions (pyGet cmd "options")
    | _ => Except.error "web_search: optionsはオブジェクトである必要があります"
  else Except.ok ())

/-- The per-field loop of _validate_required_fields: a required field
must not be None (absent keys read as None), and a string-valued required
field other than content must be non-blank after stripping. -/
def checkRequiredFields (cmd : PyVal) : List String -> Except String Unit
  | [] => Except.ok ()
  | f :: rest =>
      pySeq (match pyGet cmd f with
        | PyVal.none => Except.error ("必須フィールドが不足: " ++ f)
        | PyVal.str s =>
            if f != "content" && pyStrip s == "" then
              Except.error ("必須フィールドが空です: " ++ f)
            else Except.ok ()
        | _ => Except.ok ())
      (checkRequiredFields cmd rest)

/-- CommandValidator._validate_required_fields. -/
def validateRequiredFields (cmd : PyVal) : Except String Unit :=
  checkRequiredFields cmd (requiredFieldsFor (pyGet cmd "action"))

/-- Python iteration over a value, used by _validate_deletion_safety when
the paths field holds a truthy non-list (unreachable from validate, where
batch validation has already type-checked it): strings iterate their
characters, dicts their keys, other scalars raise TypeError. -/
def pyIter : PyVal -> Except String (List PyVal)
  | PyVal.list xs => Except.ok xs
  | PyVal.str s => Except.ok (s.toList.map (fun c => PyVal.str (String.mk [c])))
  | PyVal.dict kvs => Except.ok (kvs.map (fun kv => PyVal.str kv.fst))
  | _ => Except.error "TypeError: object is not iterable"

/-- The per-path loop of _validate_deletion_safety: falsy paths are
skipped; the critical-file patterns only print a warning and are dropped;
a path equal to a root/current-dir marker or containing a wildcard raises.
A non-string truthy path would make Python raise TypeError at the
substring test; that branch is unreachable from validate. -/
def checkDeletionPaths : List PyVal -> Except String Unit
  | [] => Except.ok ()
  | p :: rest =>
      pySeq (if !pyTruthy p then Except.ok ()
        else
          match p with
          | PyVal.str s =>
              if s == "/" || s == "." || s == "*" || strContains s "*" then
                Except.error ("危険な削除操作が検出されました: " ++ s)
              else Except.ok ()
          | _ => Except.error "TypeError: argument is not iterable")
      (checkDeletionPaths rest)

/-- CommandValidator._validate_deletion_safety. -/
def validateDeletionSafety (cmd : PyVal) : Except String Unit :=
  pyBind (if pyTruthy (pyGet cmd "paths") then pyIter (pyGet cmd "paths")
    else if pyTruthy (pyGet cmd "path") then Except.ok [pyGet cmd "path"]
    else Except.ok [])
  (fun pathsToCheck => checkDeletionPaths pathsToCheck)

/-- CommandValidator._check_dangerous_operations: for dangerous actions a
log line is printed (dropped), and for the deletion actions the deletion
safety check runs. -/
def checkDangerousOperations (cmd : PyVal) : Except String Unit :=
  match pyGet cmd "action" with
  | PyVal.str s =>
      if dangerousActions.contains s then
        if s == "delete_file" || s == "batch_delete" then validateDeletionSafety cmd
        else Except.ok ()
      else Except.ok ()
  | _ => Except.ok ()

/-- The check sequence of CommandValidator.validate, in source order:
dict shape, action, then either the web_search branch or the path and
batch checks, then required fields and the dangerous-operation guard. -/
def validateSteps (cmd : PyVal) : Except String Unit :=
  pySeq (match cmd with
    | PyVal.dict _ => Except.ok ()
    | _ => Except.error "無効なコマンド形式です")
  (pySeq (validateAction (pyGet cmd "action"))
  (pySeq (if isSearchCommand (pyGet cmd "action") then
      validateWebSearchCommand cmd
    else
      pySeq (validatePaths cmd) (validateBatchPaths cmd))
  (pySeq (validateRequiredFields cmd)
  (checkDangerousOperations cmd))))

/-- CommandValidator.validate: run the checks, then return True. -/
def validate (cmd : PyVal) : Except String Bool :=
  pySeq (validateSteps cmd) (Except.ok true)

/-! ## ConversationManager (src/server_pythonver/chat/conversation_manager.py)

History entries are dicts whose user and ai fields, when present, are
strings (the Exchange type of the data model; the data model also allows
a null ai, but a null makes the source raise TypeError inside
len(entry.get("ai", "")), so such entries never survive the functions
embedded here and are outside the embedding's domain).  An absent field
and an empty-string field are indistinguishable to every embedded
operation, since the source always reads them with .get(field, "") or
tests their truthiness.  The mutable max_history_items and
max_history_length instance fields are a configuration record. -/

/-- One conversation exchange: user and ai text fields, each possibly
absent, plus the timestamp the data model carries (never read by the
embedded operations). -/
structure Exchange where
  user : Option String := Option.none
  ai : Option String := Option.none
  timestamp : Option String := Option.none
deriving DecidableEq, Repr

/-- The ConversationManager configuration state. -/
structure CMConfig where
  maxHistoryItems : Nat
  maxHistoryLength : Nat
deriving DecidableEq, Repr

/-- The constructor defaults of ConversationManager. -/
def defaultCMConfig : CMConfig := ⟨15, 10000⟩

/-- Python entry.get(field, "") for an exchange field. -/
def exGet (f : Option String) : String := f.getD ""

/-- ConversationManager._calculate_total_history_length. -/
def calcTotalHistoryLength (history : List Exchange) : Nat :=
  history.foldl (fun total e => total + (exGet e.user).length + (exGet e.ai).length) 0

/-- Python history[-n:] slicing: the last n entries, except that n = 0
yields the whole list (history[-0:] is history[0:]). -/
def pySliceLast (n : Nat) (l : List Exchange) : List Exchange :=
  if n == 0 then l else l.drop (l.length - n)

/-- The loop of _truncate_history_by_length: walk the history newest
first, keep entries while the running length stays within the cap, and
stop at the first entry that does not fit; insert(0) on the kept list
reconstructs chronological order, which consing onto the accumulator
reproduces. -/
def truncateAux (cap : Nat) : List Exchange → Nat → List Exchange → List Exchange
  | [], _, acc => acc
  | e :: rest, cur, acc =>
      let el := (exGet e.user).length + (exGet e.ai).length
      if cur + el ≤ cap then truncateAux cap rest (cur + el) (e :: acc)
      else acc

/-- ConversationManager._truncate_history_by_length. -/
def truncateHistoryByLength (cfg : CMConfig) (history : List Exchange) : List Exchange :=
  truncateAux cfg.maxHistoryLength history.reverse 0 []

/-- The dedup key of _remove_duplicate_history: the user text and ai text
joined by an underscore. -/
def historyKey (e : Exchange) : String :=
  exGet e.user ++ "_" ++ exGet e.ai

/-- The loop of _remove_duplicate_history, carrying the seen-key set. -/
def removeDuplicateAux (seen : List String) : List Exchange → List Exchange
  | [] => []
  | e :: rest =>
      if seen.contains (historyKey e) then removeDuplicateAux seen rest
      else e :: removeDuplicateAux (historyKey e :: seen) rest

/-- ConversationManager._remove_duplicate_history. -/
def removeDuplicateHistory (history : List Exchange) : List Exchange :=
  removeDuplicateAux [] history

/-- ConversationManager._remove_incomplete_history: keep entries whose
user text is truthy and non-blank after stripping, and whose ai text is
either falsy or at least 3 characters after stripping. -/
def removeIncompleteHistory (history : List Exchange) : List Exchange :=
  history.filter (fun e =>
    (exGet e.user) != "" && (pyStrip (exGet e.user)).length > 0 &&
      (exGet e.ai == "" || (pyStrip (exGet e.ai)).length ≥ 3))

/-- The conversationHistory value of a raw context: absent, present but
not a list, or a list of exchanges. -/
inductive HistField where
  | absent : HistField
  | nonList : HistField
  | entries (l : List Exchange) : HistField

/-- ConversationManager._optimize_conversation_history: non-lists become
[]; lists are windowed to the newest maxHistoryItems entries, truncated
oldest-first when the total character length exceeds the cap, then
deduplicated and filtered for incomplete entries, in that order. -/
def optimizeConversationHistory (cfg : CMConfig) (h : HistField) : List Exchange :=
  match h with
  | HistField.absent => []
  | HistField.nonList => []
  | HistField.entries l =>
      let optimized := pySliceLast cfg.maxHistoryItems l
      let optimized :=
        if calcTotalHistoryLength optimized > cfg.maxHistoryLength then
          truncateHistoryByLength cfg optimized
        else optimized
      let optimized := removeDuplicateHistory optimized
      removeIncompleteHistory optimized

/-- The context-switch keyword list of _detect_context_switch. -/
def contextSwitchKeywords : List String :=
  ["新しい", "別の", "違う", "change", "switch", "切り替え",
   "help", "ヘルプ", "使い方", "機能"]

/-- ConversationManager._detect_context_switch: false for histories
shorter than 3 entries; otherwise the last three user texts are
lowercased and the most recent one is scanned for any keyword. -/
def detectContextSwitch (history : List Exchange) : Bool :=
  if history.length < 3 then false
  else
    contextSwitchKeywords.any (fun k =>
      strContains ((((history.drop (history.length - 3)).map
        (fun e => pyLower (exGet e.user))).getLast?).getD "") k)

/-- The part of a context that should_suggest_new_chat reads: its
conversationHistory key, absent or a list of exchanges. -/
structure SuggestCtx where
  conversationHistory : Option (List Exchange) := Option.none

/-- ConversationManager.should_suggest_new_chat. -/
def shouldSuggestNewChat (cfg : CMConfig) (ctx : SuggestCtx) : Bool :=
  let history := ctx.conversationHistory.getD []
  if history.length ≥ cfg.maxHistoryItems then true
  else if calcTotalHistoryLength history ≥ cfg.maxHistoryLength then true
  else if detectContextSwitch history then true
  else false

/-- The fileList value of a raw context: absent, present but not a list,
or a list of arbitrary values. -/
inductive FileField where
  | absent : FileField
  | nonList : FileField
  | entries (l : List PyVal) : FileField

/-- ConversationManager._normalize_file_list: non-lists become []; lists
keep their string elements that are non-empty after stripping, stripped,
capped at 1000 entries. -/
def normalizeFileList (f : FileField) : List String :=
  match f with
  | FileField.absent => []
  | FileField.nonList => []
  | FileField.entries l =>
      (l.filterMap (fun v =>
        match v with
        | PyVal.str s => if (pyStrip s).length > 0 then some (pyStrip s) else Option.none
        | _ => Option.none)).take 1000

/-- The normalized custom prompt produced by _validate_custom_prompt: the
enabled flag is coerced to bool, the other fields keep whatever value the
caller supplied (defaulting name to "Unknown" and content and description
to "" only when the key is absent). -/
structure CPNorm where
  enabled : Bool
  name : PyVal
  content : PyVal
  description : PyVal

/-- ConversationManager._validate_custom_prompt: non-dicts (including an
absent value and None) become None; dicts are normalized field by
field. -/
def validateCustomPrompt (cp : Option PyVal) : Option CPNorm :=
  match cp with
  | some (PyVal.dict kvs) =>
      some ⟨pyTruthy ((dictLookup kvs "enabled").getD PyVal.none),
            (dictLookup kvs "name").getD (PyVal.str "Unknown"),
            (dictLookup kvs "content").getD (PyVal.str ""),
            (dictLookup kvs "description").getD (PyVal.str "")⟩
  | _ => Option.none

/-- A raw caller-supplied context as prepare_context receives it: each
field is absent (the key is missing) or carries a value.  Fields the
function only merges or measures stay PyVal; the two list-shaped fields
record the only shape distinction the source makes. -/
structure RawCtx where
  currentPath : Option PyVal := Option.none
  fileList : FileField := FileField.absent
  currentFile : Option PyVal := Option.none
  openFileInfo : Option PyVal := Option.none
  conversationHistory : HistField := HistField.absent
  customPrompt : Option PyVal := Option.none

/-- The derived metadata record of _generate_context_metadata. -/
structure CtxMetadata where
  timestamp : String
  historyCount : Nat
  fileCount : Nat
  hasCustomPrompt : Bool
  hasOpenFile : Bool
  contextSize : Nat

/-- The enriched context returned by prepare_context. -/
structure EnrichedContext where
  currentPath : PyVal
  currentFile : PyVal
  openFileInfo : PyVal
  conversationHistory : List Exchange
  fileList : List String
  customPrompt : Option CPNorm
  metadata : CtxMetadata

/-- json.dumps of the normalized file list (a list of strings), used only
for its length in _calculate_context_size: elements are double-quoted
with backslash and quote escaped, joined by comma-space inside brackets.
Python additionally escapes control and non-ASCII characters; the
embedded pipeline never measures such file names. -/
def jsonDumpsStrList (l : List String) : String :=
  let esc := fun (s : String) =>
    String.join (s.toList.map (fun c =>
      if c == '\\' then "\\\\"
      else if c == '"' then "\\\""
      else String.mk [c]))
  "[" ++ String.intercalate ", " (l.map (fun s => "\"" ++ esc s ++ "\"")) ++ "]"

/-- ConversationManager._calculate_context_size over the enriched context
(the source calls it on the enriched dict after all normalization steps):
lengths of currentPath, the dumped fileList, currentFile and openFileInfo
— raising TypeError when a value has no len(), as the source does on the
None defaults — plus the history character total and, when the
normalized custom prompt is truthy, the lengths of its content, name and
description values. -/
def calcContextSize (currentPath currentFile openFileInfo : PyVal)
    (history : List Exchange) (fileList : List String)
    (customPrompt : Option CPNorm) : Except String Nat := do
  let a ← pyLen currentPath
  let b := (jsonDumpsStrList fileList).length
  let c ← pyLen currentFile
  let d ← pyLen openFileInfo
  let e := calcTotalHistoryLength history
  match customPrompt with
  | some cp => do
      let f ← pyLen cp.content
      let g ← pyLen cp.name
      let h ← pyLen cp.description
      Except.ok (a + b + c + d + e + f + g + h)
  | Option.none => Except.ok (a + b + c + d + e)

/-- ConversationManager._generate_context_metadata, with the dict-literal
fields evaluated in source order: computing hasCustomPrompt calls .get on
the normalized customPrompt value, which raises AttributeError when that
value is None (Python None has no .get). -/
def generateContextMetadata (now : String) (currentPath currentFile openFileInfo : PyVal)
    (history : List Exchange) (fileList : List String)
    (customPrompt : Option CPNorm) : Except String CtxMetadata := do
  let historyCount := history.length
  let fileCount := fileList.length
  let hasCustomPrompt ←
    match customPrompt with
    | some cp => Except.ok cp.enabled
    | Option.none => Except.error "AttributeError: NoneType object has no attribute get"
  let hasOpenFile := pyTruthy currentFile
  let contextSize ← calcContextSize currentPath currentFile openFileInfo history fileList customPrompt
  Except.ok ⟨now, historyCount, fileCount, hasCustomPrompt, hasOpenFile, contextSize⟩

/-- ConversationManager.prepare_context: overlay the caller context onto
the fixed defaults (currentPath "/workspace", empty fileList, None
currentFile and openFileInfo), optimize the history, normalize the file
list, normalize the custom prompt, then compute the metadata. -/
def prepareContext (cfg : CMConfig) (raw : RawCtx) (now : String) :
    Except String EnrichedContext := do
  let currentPath := raw.currentPath.getD (PyVal.str "/workspace")
  let currentFile := raw.currentFile.getD PyVal.none
  let openFileInfo := raw.openFileInfo.getD PyVal.none
  let history := optimizeConversationHistory cfg raw.conversationHistory
  let fileList := normalizeFileList raw.fileList
  let customPrompt := validateCustomPrompt raw.customPrompt
  let metadata ← generateContextMetadata now currentPath currentFile openFileInfo
    history fileList customPrompt
  Except.ok ⟨currentPath, currentFile, openFileInfo, history, fileList, customPrompt, metadata⟩

/-! ## JSON decoding (Python json.loads)

The dispatcher decodes completions with json.loads.  The decoder is
embedded as a recursive-descent parser over the character list, with a
fuel argument for termination; the fuel given at the top level (twice the
input length plus a constant) exceeds the number of parser steps any
input of that length can demand, so fuel exhaustion never fires on real
input.  The grammar follows Python json.loads: the JSON standard with
strict strings (raw control characters rejected) and no leading zeros;
the NaN/Infinity extensions are not modelled (no embedded caller feeds
them). -/

/-- JSON whitespace (space, tab, line feed, carriage return). -/
def isJsonWs (c : Char) : Bool :=
  c.toNat == 32 || c.toNat == 9 || c.toNat == 10 || c.toNat == 13

/-- Drop leading JSON whitespace. -/
def skipWs : List Char → List Char
  | [] => []
  | c :: rest => if isJsonWs c then skipWs rest else c :: rest

/-- Drop an expected literal character sequence. -/
def dropLit : List Char → List Char → Option (List Char)
  | [], cs => some cs
  | l :: ls, c :: cs => if c == l then dropLit ls cs else Option.none
  | _ :: _, [] => Option.none

/-- Hexadecimal digit value, written over code points: decimal digits
occupy 48-57, the lowercase letters a-f occupy 97-102 and the uppercase
letters A-F occupy 65-70. -/
def hexVal (c : Char) : Option Nat :=
  let n := c.toNat
  if 48 ≤ n && n ≤ 57 then some (n - 48)
  else if 97 ≤ n && n ≤ 102 then some (n - 87)
  else if 65 ≤ n && n ≤ 70 then some (n - 55)
  else Option.none

/-- Four hex digits of a \u escape. -/
def parseHex4 : List Char → Option (Nat × List Char)
  | a :: b :: c :: d :: rest => do
      let va ← hexVal a
      let vb ← hexVal b
      let vc ← hexVal c
      let vd ← hexVal d
      some (((va * 16 + vb) * 16 + vc) * 16 + vd, rest)
  | _ => Option.none

/-- The character denoted by a single-character JSON escape, or none for
an invalid escape (the \u form is handled separately). -/
def jsonEscapeChar (e : Char) : Option Char :=
  if e == 'n' then some '\x0a'
  else if e == 't' then some '\x09'
  else if e == 'r' then some '\x0d'
  else if e == 'b' then some '\x08'
  else if e == 'f' then some '\x0c'
  else if e == '"' then some '"'
  else if e == '\\' then some '\\'
  else if e == '/' then some '/'
  else Option.none

/-- The body of a JSON string after the opening quote: strict mode, so
raw control characters are rejected; the standard escapes and \u escapes
are decoded (surrogate pairs are left as two code units, which only
affects exotic strings no claim touches). -/
def parseJsonStringBody (fuel : Nat) (cs : List Char) (acc : List Char) :
    Option (String × List Char) :=
  match fuel, cs with
  | 0, _ => Option.none
  | _, [] => Option.none
  | fuel + 1, c :: rest =>
      if c == '"' then some (String.mk acc.reverse, rest)
      else if c == '\\' then
        match rest with
        | [] => Option.none
        | e :: rest2 =>
            if e == 'u' then
              match parseHex4 rest2 with
              | some (n, rest3) =>
                  parseJsonStringBody fuel rest3 ((Char.ofNat n) :: acc)
              | Option.none => Option.none
            else
              match jsonEscapeChar e with
              | some d => parseJsonStringBody fuel rest2 (d :: acc)
              | Option.none => Option.none
      else if c.toNat < 32 then Option.none
      else parseJsonStringBody fuel rest (c :: acc)

/-- Decimal digit test over code points (48 through 57). -/
def isDecDigit (c : Char) : Bool :=
  48 ≤ c.toNat && c.toNat ≤ 57

/-- A run of decimal digits, returning its value and count. -/
def parseDigitRun : List Char → Nat → Nat → (Nat × Nat × List Char)
  | [], v, n => (v, n, [])
  | c :: rest, v, n =>
      if isDecDigit c then parseDigitRun rest (v * 10 + (c.toNat - 48)) (n + 1)
      else (v, n, c :: rest)

/-- The integer part of a JSON number: 0, or a nonzero leading digit
followed by a digit run (leading zeros rejected, as json.loads does). -/
def parseIntPart : List Char → Option (Nat × List Char)
  | [] => Option.none
  | c :: rest =>
      if c == '0' then some (0, rest)
      else if isDecDigit c then
        let (v, _, rest2) := parseDigitRun rest (c.toNat - 48) 0
        some (v, rest2)
      else Option.none

/-- A JSON number starting at cs: optional minus, integer part, optional
fraction and exponent; an integer literal yields a Python int, anything
with a fraction or exponent yields a float (kept as mantissa and
power-of-ten exponent). -/
def parseJsonNumber (cs : List Char) : Option (PyVal × List Char) := do
  let (neg, cs1) :=
    match cs with
    | '-' :: rest => (true, rest)
    | _ => (false, cs)
  let (ip, cs2) ← parseIntPart cs1
  let (frac, fracDigits, cs3) :=
    match cs2 with
    | '.' :: rest =>
        let (v, n, rest2) := parseDigitRun rest 0 0
        (v, n, rest2)
    | _ => (0, 0, cs2)
  if (match cs2 with | '.' :: _ => fracDigits == 0 | _ => false) then Option.none
  else
    let hasFrac := match cs2 with | '.' :: _ => true | _ => false
    let (hasExp, expOk, expVal, cs4) :=
      match cs3 with
      | e :: rest =>
          if e == 'e' || e == 'E' then
            let (esign, rest2) :=
              match rest with
              | '+' :: r => ((1 : Int), r)
              | '-' :: r => ((-1 : Int), r)
              | _ => ((1 : Int), rest)
            let (v, n, rest3) := parseDigitRun rest2 0 0
            (true, n != 0, esign * Int.ofNat v, rest3)
          else (false, true, (0 : Int), cs3)
      | [] => (false, true, (0 : Int), cs3)
    if hasExp && !expOk then Option.none
    else
      let sign : Int := if neg then -1 else 1
      if !hasFrac && !hasExp then
        some (PyVal.int (sign * Int.ofNat ip), cs4)
      else
        let mantissa := sign * Int.ofNat (ip * 10 ^ fracDigits + frac)
        some (PyVal.num mantissa (expVal - Int.ofNat fracDigits), cs4)

mutual

/-- A JSON value starting at cs (whitespace already allowed before). -/
def parseJsonValue : Nat → List Char → Option (PyVal × List Char)
  | 0, _ => Option.none
  | fuel + 1, cs =>
      match skipWs cs with
      | [] => Option.none
      | c :: rest =>
          if c == 'n' then (dropLit ['u', 'l', 'l'] rest).map (fun r => (PyVal.none, r))
          else if c == 't' then (dropLit ['r', 'u', 'e'] rest).map (fun r => (PyVal.bool true, r))
          else if c == 'f' then (dropLit ['a', 'l', 's', 'e'] rest).map (fun r => (PyVal.bool false, r))
          else if c == '"' then
            (parseJsonStringBody (rest.length + 1) rest []).map
              (fun sv => (PyVal.str sv.fst, sv.snd))
          else if c == '[' then
            match skipWs rest with
            | ']' :: rest2 => some (PyVal.list [], rest2)
            | cs2 => (parseJsonArrayItems fuel cs2 []).map
                (fun r => (PyVal.list r.fst, r.snd))
          else if c == '\x7b' then
            match skipWs rest with
            | '\x7d' :: rest2 => some (PyVal.dict [], rest2)
            | cs2 => (parseJsonObjectItems fuel cs2 []).map
                (fun r => (PyVal.dict r.fst, r.snd))
          else if c == '-' || isDecDigit c then parseJsonNumber (c :: rest)
          else Option.none

/-- The comma-separated items of a non-empty JSON array, positioned at
the start of an item. -/
def parseJsonArrayItems (fuel : Nat) (cs : List Char) (acc : List PyVal) :
    Option (List PyVal × List Char) :=
  match fuel with
  | 0 => Option.none
  | fuel + 1 =>
      match parseJsonValue fuel cs with
      | Option.none => Option.none
      | some (v, rest) =>
          match skipWs rest with
          | ',' :: rest2 => parseJsonArrayItems fuel rest2 (v :: acc)
          | ']' :: rest2 => some ((v :: acc).reverse, rest2)
          | _ => Option.none

/-- The comma-separated entries of a non-empty JSON object, positioned at
the start of a key string. -/
def parseJsonObjectItems (fuel : Nat) (cs : List Char) (acc : List (String × PyVal)) :
    Option (List (String × PyVal) × List Char) :=
  match fuel with
  | 0 => Option.none
  | fuel + 1 =>
      match skipWs cs with
      | '"' :: rest =>
          match parseJsonStringBody (rest.length + 1) rest [] with
          | Option.none => Option.none
          | some (k, rest2) =>
              match skipWs rest2 with
              | ':' :: rest3 =>
                  match parseJsonValue fuel rest3 with
                  | Option.none => Option.none
                  | some (v, rest4) =>
                      match skipWs rest4 with
                      | ',' :: rest5 => parseJsonObjectItems fuel rest5 ((k, v) :: acc)
                      | '\x7d' :: rest5 => some (((k, v) :: acc).reverse, rest5)
                      | _ => Option.none
              | _ => Option.none
      | _ => Option.none

end

/-- Python json.loads: parse one JSON value and require only whitespace
after it; any failure is a JSONDecodeError, modelled as none. -/
def jsonParse (s : String) : Option PyVal :=
  match parseJsonValue (2 * s.length + 16) s.toList with
  | some (v, rest) => if (skipWs rest).isEmpty then some v else Option.none
  | Option.none => Option.none

/-! ## AgentDispatcher (src/server_pythonver/ai/agent_dispatcher.py)

The injected generation client (llm_adapter.call_llm) is an external
collaborator: dispatch makes exactly two calls to it, one for agent
selection and one for the selected agent's reply, and each call either
returns a completion string or raises.  The client's behaviour at the two
call sites is therefore captured by two Except String String values,
quantifying over which covers every behaviour of the injected client.
The context keys dispatch reads (provider, model, agent_selection_model,
currentPath) form the DispatchCtx record; all other context content is
never read by dispatch. -/

/-- The three agent keys of the process-wide agents table. -/
inductive AgentKey where
  | fileExpert : AgentKey
  | webSearchExpert : AgentKey
  | generalAssistant : AgentKey
deriving DecidableEq, Repr

/-- The display name of each agent (agents[key]["name"]). -/
def agentName : AgentKey → String
  | AgentKey.fileExpert => "ファイル操作エキスパート"
  | AgentKey.webSearchExpert => "Web検索エキスパート"
  | AgentKey.generalAssistant => "汎用アシスタント"

/-- The description of each agent (agents[key]["description"]). -/
def agentDescription : AgentKey → String
  | AgentKey.fileExpert => "ファイルやディレクトリの作成、読み込み、編集、削除、コピー、移動、一覧表示、一括操作など、ファイルシステム関連のタスクを処理します。"
  | AgentKey.webSearchExpert => "インターネット上の情報を検索し、ユーザーの質問に答えるための情報収集を行います。"
  | AgentKey.generalAssistant => "上記のエキスパートエージェントで処理できない一般的な質問やタスクに対応します。"

/-- The capability list of each agent (agents[key]["capabilities"]). -/
def agentCapabilities : AgentKey → List String
  | AgentKey.fileExpert =>
      ["create_file", "create_directory", "delete_file", "copy_file", "move_file",
       "read_file", "edit_file", "list_files", "batch_delete", "batch_copy", "batch_move"]
  | AgentKey.webSearchExpert => ["web_search"]
  | AgentKey.generalAssistant => []

/-- The prompt template of each agent after str.format substitution (the
only template variable is current_path in the file expert's template;
format also collapses the doubled braces of the JSON examples into
literal braces, which the embedding stores directly). -/
def agentPromptText : AgentKey → String → String
  | AgentKey.fileExpert, currentPath =>
      "あなたはファイル操作のエキスパートAIです。ユーザーの指示に基づいて、ファイルシステム操作コマンドをJSON形式で生成します。\n" ++
      "利用可能なコマンド:\n" ++
      "- create_file: ファイルを作成します。例: \x7b\"action\": \"create_file\", \"path\": \"path/to/file.txt\", \"content\": \"ファイルの内容\"\x7d\n" ++
      "- create_directory: ディレクトリを作成します。例: \x7b\"action\": \"create_directory\", \"path\": \"path/to/directory\"\x7d\n" ++
      "- delete_file: ファイルを削除します。例: \x7b\"action\": \"delete_file\", \"path\": \"path/to/file.txt\"\x7d\n" ++
      "- copy_file: ファイルをコピーします。例: \x7b\"action\": \"copy_file\", \"source\": \"path/to/source.txt\", \"destination\": \"path/to/destination.txt\"\x7d\n" ++
      "- move_file: ファイルを移動またはリネームします。例: \x7b\"action\": \"move_file\", \"source\": \"path/to/old_name.txt\", \"destination\": \"path/to/new_name.txt\"\x7d\n" ++
      "- read_file: ファイルの内容を読み込みます。例: \x7b\"action\": \"read_file\", \"path\": \"path/to/file.txt\"\x7d\n" ++
      "- edit_file: ファイルの内容を編集します。例: \x7b\"action\": \"edit_file\", \"path\": \"path/to/file.txt\", \"content\": \"新しいファイルの内容\"\x7d\n" ++
      "- list_files: ディレクトリ内のファイルとディレクトリを一覧表示します。例: \x7b\"action\": \"list_files\", \"path\": \"path/to/directory\"\x7d\n" ++
      "- batch_delete: 複数のファイルを一括削除します。例: \x7b\"action\": \"batch_delete\", \"paths\": [\"path/to/file1.txt\", \"path/to/file2.txt\"]\x7d\n" ++
      "- batch_copy: 複数のファイルを一括コピーします。例: \x7b\"action\": \"batch_copy\", \"sources\": [\"path/to/file1.txt\", \"path/to/file2.txt\"], \"destination\": \"path/to/directory\"\x7d\n" ++
      "- batch_move: 複数のファイルを一括移動します。例: \x7b\"action\": \"batch_move\", \"sources\": [\"path/to/file1.txt\", \"path/to/file2.txt\"], \"destination\": \"path/to/directory\"\x7d\n" ++
      "\n" ++
      "ユーザーの指示を正確に理解し、適切なコマンドを1つ以上生成してください。\n" ++
      "複数のコマンドが必要な場合は、JSON配列として返してください。\n" ++
      "例: [\x7b\"action\": \"create_directory\", \"path\": \"new_dir\"\x7d, \x7b\"action\": \"create_file\", \"path\": \"new_dir/file.txt\", \"content\": \"Hello\"\x7d]\n" ++
      "ファイルの内容を生成する場合は、具体的な内容を含めてください。\n" ++
      "現在の作業ディレクトリは " ++ currentPath ++ " です。相対パスを使用してください。\n"
  | AgentKey.webSearchExpert, _ =>
      "あなたはWeb検索のエキスパートAIです。ユーザーの質問や指示に基づいて、Web検索コマンドをJSON形式で生成します。\n" ++
      "利用可能なコマンド:\n" ++
      "- web_search: 指定されたクエリでWeb検索を実行します。例: \x7b\"action\": \"web_search\", \"query\": \"検索クエリ\", \"options\": \x7b\"maxResults\": 5, \"provider\": \"auto\"\x7d\x7d\n" ++
      "  - options:\n" ++
      "    - maxResults: 検索結果の最大数 (1-20, デフォルト: 10)\n" ++
      "    - provider: 検索プロバイダー (\x27auto\x27, \x27tavily\x27, \x27google\x27, \x27duckduckgo\x27, デフォルト: \x27auto\x27)\n" ++
      "    - language: 検索結果の言語 (ISO 639-1コード, 例: \x27ja\x27, \x27en\x27)\n" ++
      "    - region: 検索結果の地域 (ISO 3166-1 alpha-2コード, 例: \x27JP\x27, \x27US\x27)\n" ++
      "    - filterDomains: 特定のドメインに絞って検索 (配列)\n" ++
      "    - excludeDomains: 特定のドメインを除外して検索 (配列)\n" ++
      "\n" ++
      "ユーザーの指示を正確に理解し、最適な検索クエリとオプションを含むコマンドを1つ生成してください。\n" ++
      "例: \x7b\"action\": \"web_search\", \"query\": \"最新のAI技術トレンド 2024\", \"options\": \x7b\"maxResults\": 3, \"language\": \"ja\"\x7d\x7d\n"
  | AgentKey.generalAssistant, _ =>
      "あなたは親切で有能な汎用アシスタントAIです。\n" ++
      "ユーザーの質問や指示に対して、最も適切と思われる情報を提供したり、対話を行ったりします。\n" ++
      "もし、ファイル操作やWeb検索が必要な場合は、その旨をユーザーに伝え、具体的な指示を促してください。\n" ++
      "例: \"ファイルを作成するには、具体的なファイル名と内容を教えていただけますか？\"\n" ++
      "例: \"Web検索を行うには、どのような情報を知りたいか、具体的なキーワードを教えてください。\"\n"

/-- AgentDispatcher._build_agent_selection_prompt. -/
def buildAgentSelectionPrompt (userMessage : String) : String :=
  "ユーザーの入力メッセージから、どのエージェントが対応すべきか判断してください。\n" ++
  "選択肢は次のとおりです：\n" ++
  "- file_expert: " ++ agentName AgentKey.fileExpert ++ " - " ++ agentDescription AgentKey.fileExpert ++ "\n" ++
  "- web_search_expert: " ++ agentName AgentKey.webSearchExpert ++ " - " ++ agentDescription AgentKey.webSearchExpert ++ "\n" ++
  "- general_assistant: " ++ agentName AgentKey.generalAssistant ++ " - " ++ agentDescription AgentKey.generalAssistant ++ "\n" ++
  "\n応答は、選択したエージェントのキー（file_expert、web_search_expert、general_assistant）のみを返してください。\n" ++
  "他の説明は不要です。\n" ++
  "\nユーザーのメッセージ：" ++ userMessage ++ "\n" ++
  "\n選択されたエージェント："

/-- AgentDispatcher._parse_agent_selection_response: lowercase-trim the
reply, try exact key matches, then keyword matches, else default to the
general assistant. -/
def parseAgentSelectionResponse (response : String) : AgentKey :=
  let r := pyLower (pyStrip response)
  if r == "file_expert" then AgentKey.fileExpert
  else if r == "web_search_expert" then AgentKey.webSearchExpert
  else if r == "general_assistant" then AgentKey.generalAssistant
  else if strContains r "file" || strContains r "ファイル" then AgentKey.fileExpert
  else if strContains r "search" || strContains r "検索" || strContains r "web" then
    AgentKey.webSearchExpert
  else AgentKey.generalAssistant

/-- AgentDispatcher._select_agent_with_llm: any failure of the selection
call is caught and falls back to the general assistant; a successful
reply is mapped to a key (which is always one of the three table keys, so
the membership test in the source always passes). -/
def selectAgentWithLLM (selResp : Except String String) : AgentKey :=
  match selResp with
  | Except.error _ => AgentKey.generalAssistant
  | Except.ok r => parseAgentSelectionResponse r

/-- AgentDispatcher._build_agent_prompt: the agent template (formatted
with the context currentPath for the file expert) followed by the user
message line. -/
def buildAgentPrompt (agent : AgentKey) (userMessage : String) (currentPath : String) : String :=
  agentPromptText agent currentPath ++ "\nユーザーの指示: " ++ userMessage

/-- The context keys dispatch reads. -/
structure DispatchCtx where
  provider : Option String := Option.none
  model : Option String := Option.none
  agentSelectionModel : Option String := Option.none
  currentPath : Option String := Option.none

/-- Python (arg if arg else fallback) for an optional string argument. -/
def pyArgOr (arg : Option String) (fallback : String) : String :=
  match arg with
  | some s => if s != "" then s else fallback
  | Option.none => fallback

/-- The result record assembled by dispatch. -/
structure DispatchResult where
  agent : String
  commands : List PyVal
  rawLlmResponse : String
  parseSuccess : Bool
  warning : Option String
  error : Option String
  message : PyVal

/-- The parse record returned by _parse_llm_response_for_commands. -/
structure ParsedData where
  commands : List PyVal
  parseSuccess : Bool
  warning : Option String
  message : PyVal

/-- Python str.find: the character index of the first occurrence of pat
in s, or none when absent (Python returns -1; the callers compare against
a found index, modelled on the option). -/
def strFindIdx (s pat : String) : Option Nat :=
  (List.range (s.length + 1)).find? (fun i => pat.toList.isPrefixOf (s.toList.drop i))

/-- Python str.rfind: the character index of the last occurrence. -/
def strRFindIdx (s pat : String) : Option Nat :=
  ((List.range (s.length + 1)).filter
    (fun i => pat.toList.isPrefixOf (s.toList.drop i))).getLast?

/-- The fenced-block extraction step of _parse_llm_response_for_commands:
strip the completion, and when a json-labelled fence occurs take the text
between the end of the first opening fence and the last closing fence,
stripped, provided the latter lies beyond the former. -/
def extractJsonContent (llmResponse : String) : String :=
  let c := pyStrip llmResponse
  if strContains c "```json" then
    match strFindIdx c "```json" with
    | some idx =>
        let start := idx + 7
        match strRFindIdx c "```" with
        | some endIdx =>
            if endIdx > start then
              pyStrip (String.mk ((c.toList.drop start).take (endIdx - start)))
            else c
        | Option.none => c
    | Option.none => c
  else c

/-- Python (x or y) where x is an optional parsed message value and y the
raw completion: the message value when truthy, else the completion. -/
def pyValOrStr (mfl : Option PyVal) (fallback : String) : PyVal :=
  match mfl with
  | some v => if pyTruthy v then v else PyVal.str fallback
  | Option.none => PyVal.str fallback

/-- AgentDispatcher._parse_llm_response_for_commands: extract the fenced
content, decode it as JSON, and classify the decoded shape — a dict with
an action is a single command, a dict with a list-typed commands field is
a command list, a message field in a dict is captured and counts as parse
success, a top-level list is the command list, any other decoded shape
records a warning, and a decode failure records a warning and marks the
parse failed.  The returned message falls back to the raw completion
whenever the captured message value is missing or falsy. -/
def parseLLMResponseForCommands (llmResponse : String) : ParsedData :=
  let content := extractJsonContent llmResponse
  match jsonParse content with
  | Option.none =>
      ⟨[], false, some "LLM応答のJSONパースに失敗しました", PyVal.str llmResponse⟩
  | some parsed =>
      match parsed with
      | PyVal.dict kvs =>
          let withAction := (dictLookup kvs "action").isSome
          let commandsField := dictLookup kvs "commands"
          let base :=
            if withAction then ([parsed], true)
            else
              match commandsField with
              | some (PyVal.list cs) => (cs, true)
              | _ => (([] : List PyVal), false)
          let withMessage := dictLookup kvs "message"
          let mfl := withMessage
          let parseSuccess := if withMessage.isSome then true else base.snd
          ⟨base.fst, parseSuccess, Option.none, pyValOrStr mfl llmResponse⟩
      | PyVal.list cs => ⟨cs, true, Option.none, pyValOrStr Option.none llmResponse⟩
      | _ =>
          ⟨[], false,
           some "LLM応答は有効なJSONですが、予期しない形式です (dictまたはlistではありません)。",
           pyValOrStr (some (PyVal.str llmResponse)) llmResponse⟩

/-- The warning accumulation of the dispatch validation loop: set the
warning when there is none, else append with a semicolon. -/
def appendWarning (w : Option String) (msg : String) : Option String :=
  match w with
  | Option.none => some msg
  | some s => some (s ++ "; " ++ msg)

/-- The dispatch validation loop: validate every parsed command, keeping
the valid ones and accumulating a warning per dropped one (the ValueError
text, or the command repr in the source's defensive false branch, which
validate in fact never takes). -/
def validateCommandsLoop : List PyVal → List PyVal → Option String → (List PyVal × Option String)
  | [], acc, w => (acc.reverse, w)
  | cmd :: rest, acc, w =>
      match validate cmd with
      | Except.ok true => validateCommandsLoop rest (cmd :: acc) w
      | Except.ok false =>
          validateCommandsLoop rest acc
            (appendWarning w ("コマンドバリデーション失敗: " ++ cmd.pyStr))
      | Except.error e =>
          validateCommandsLoop rest acc
            (appendWarning w ("コマンドバリデーション失敗: " ++ e))

/-- Python truthiness of the error local (a string or None). -/
def errTruthy : Option String → Bool
  | some s => s != ""
  | Option.none => false

/-- The final message expression of dispatch: the captured message when
truthy, else the raw completion when the parse failed without an error,
else the fixed completion notice. -/
def dispatchMessage (mfl : Option PyVal) (parseSuccess : Bool) (error : Option String)
    (llmResponse : String) : PyVal :=
  match mfl with
  | some v =>
      if pyTruthy v then v
      else if !parseSuccess && !errTruthy error then PyVal.str llmResponse
      else PyVal.str "処理が完了しました。"
  | Option.none =>
      if !parseSuccess && !errTruthy error then PyVal.str llmResponse
      else PyVal.str "処理が完了しました。"

/-- The body of AgentDispatcher.dispatch inside its outer try: select the
agent, build the prompt and resolve provider and model (these feed only
the generation calls, whose outcomes are the two Except arguments), run
the inner try around the main generation call — a raised exception
becomes the error field, empties the commands and leaves the raw response
empty — treat the general assistant's completion as the verbatim message,
parse any other agent's completion for commands, validate the parsed
commands, and assemble the result record. -/
def dispatchCore (userMessage : String) (ctx : DispatchCtx) (provider model : Option String)
    (selResp mainResp : Except String String) : DispatchResult :=
  let agent := selectAgentWithLLM selResp
  let _prompt := buildAgentPrompt agent userMessage (ctx.currentPath.getD "/workspace")
  let _actualProvider := pyArgOr provider (ctx.provider.getD "gemini")
  let _actualModel := pyArgOr model (ctx.model.getD "gemini-1.5-flash")
  let st :=
    match mainResp with
    | Except.error e =>
        ("", ([] : List PyVal), false,
         some ("LLM応答処理中にエラーが発生: " ++ e), some e, (Option.none : Option PyVal))
    | Except.ok resp =>
        if agentName agent == "汎用アシスタント" then
          (resp, ([] : List PyVal), true, (Option.none : Option String),
           (Option.none : Option String), some (PyVal.str resp))
        else
          let pd := parseLLMResponseForCommands resp
          (resp, pd.commands, pd.parseSuccess, pd.warning,
           (Option.none : Option String), some pd.message)
  match st with
  | (llmResponse, commands, parseSuccess, warning, error, mfl) =>
      let vres := validateCommandsLoop commands [] warning
      ⟨agentName agent, vres.fst, llmResponse, parseSuccess, vres.snd, error,
       dispatchMessage mfl parseSuccess error llmResponse⟩

/-- AgentDispatcher.dispatch as seen by its outer try/except: the body
runs with every potentially-raising operation handled internally, so the
outer handler only fires for exceptions the body does not model (none
arise for contexts of the modelled shape). -/
def dispatchBody (userMessage : String) (ctx : DispatchCtx) (provider model : Option String)
    (selResp mainResp : Except String String) : Except String DispatchResult :=
  Except.ok (dispatchCore userMessage ctx provider model selResp mainResp)

/-- AgentDispatcher.dispatch: the body result, or the fixed fallback
record built by the outer except handler. -/
def dispatch (userMessage : String) (ctx : DispatchCtx) (provider model : Option String)
    (selResp mainResp : Except String String) : DispatchResult :=
  match dispatchBody userMessage ctx provider model selResp mainResp with
  | Except.ok r => r
  | Except.error e =>
      ⟨"general_assistant", [], "", false,
       some "AgentDispatcherで予期せぬエラーが発生しました", some e,
       PyVal.str ("申し訳ありません。処理中にエラーが発生しました: " ++ e)⟩

/-! ## Offline mock responses (src/server_pythonver/utils/response_utils.py)

get_mock_response keys a deterministic fallback message on keywords of
the original message; the generic branch rotates through five fixed
acknowledgments using the wall-clock microsecond, modelled by an explicit
tick argument. -/

/-- The Python type name of a value, used in AttributeError texts. -/
def pyTypeName : PyVal → String
  | PyVal.none => "NoneType"
  | PyVal.bool _ => "bool"
  | PyVal.int _ => "int"
  | PyVal.num _ _ => "float"
  | PyVal.str _ => "str"
  | PyVal.list _ => "list"
  | PyVal.dict _ => "dict"

/-- A mock fallback result: a message and a (always empty in the source)
command list. -/
structure MockResult where
  message : String
  commands : List PyVal

/-- The rotating generic acknowledgments of get_mock_response. -/
def mockResponses : List String :=
  ["ファイル操作を実行しました。",
   "AIによる分析が完了しました。",
   "処理が正常に完了しました。",
   "ご質問にお答えします。何かお手伝いできることはありますか？",
   "理解しました。他にも何かサポートが必要でしたらお知らせください。"]

/-- The help-command listing returned by get_mock_response for messages
containing help keywords (transcribed verbatim from the source). -/
def mockHelpText : String :=
  "🤖 AI File Manager のコマンド一覧（RDD版 + Web検索対応）：\n\n" ++
  "**📋 基本コマンド:**\n" ++
  "• **ファイル作成** - \"新しいファイルを作って\" \"sample.txt を作成\"\n" ++
  "• **ディレクトリ作成** - \"フォルダを作って\" \"documents フォルダを作成\"\n" ++
  "• **ファイル読み込み** - \"ファイルを読んで\" \"内容を表示して\"\n" ++
  "• **ファイル編集** - \"ファイルを編集して\" \"内容を変更して\"\n" ++
  "• **ファイルコピー** - \"ファイルをコピーして\" \"backup フォルダにコピー\"\n" ++
  "• **ファイル移動** - \"ファイルを移動して\" \"フォルダを移動\"\n" ++
  "• **ファイル削除** - \"ファイルを削除して\" \"不要なファイルを消して\"\n" ++
  "• **ファイル一覧** - \"ファイル一覧\" \"何があるか教えて\"\n\n" ++
  "**🔍 Web検索・リサーチ（新機能）:**\n" ++
  "• **一般検索** - \"〜について調べて\" \"〜を検索して\"\n" ++
  "• **最新情報** - \"最新のAI技術は？\" \"今の株価は？\"\n" ++
  "• **技術情報** - \"React 18の新機能は？\" \"TypeScript最新版\"\n" ++
  "• **比較・調査** - \"iPhone vs Android\" \"プログラミング言語比較\"\n" ++
  "• **ニュース・トレンド** - \"今日のニュース\" \"最新トレンド\"\n\n" ++
  "**🔄 一括操作:**\n" ++
  "• **一括削除** - \"全ての .txt ファイルを削除して\"\n" ++
  "• **一括コピー** - \"画像ファイル全部を images フォルダにコピー\"\n" ++
  "• **一括移動** - \"古いファイルを全部 archive に移動\"\n\n" ++
  "**🤖 マルチエージェントシステム:**\n" ++
  "• **ファイル操作エキスパート** - ファイル/フォルダの操作\n" ++
  "• **コンテンツ分析エキスパート** - ファイル読み込み/分析\n" ++
  "• **Web検索エキスパート** - インターネット検索/リサーチ（新追加）\n" ++
  "• **汎用アシスタント** - 一般的な質問・ヘルプ\n\n" ++
  "**📱 操作方法:**\n" ++
  "• **ファイル表示** - ファイルをクリックでプレビュー\n" ++
  "• **ファイル操作** - ファイルを長押しで操作メニュー表示\n" ++
  "• **複数選択** - Ctrl/Cmd + クリックで複数選択\n" ++
  "• **編集切替** - 右上の✏️ボタンで編集/プレビュー切り替え\n" ++
  "• **AIコマンド** - 自然な日本語でファイル操作・検索が可能\n" ++
  "• **カスタムプロンプト** - 🧠ボタンでカスタムプロンプト有効/無効\n\n" ++
  "**🔍 検索例:**\n" ++
  "• \"JavaScript フレームワーク 2024 最新動向を調べて\"\n" ++
  "• \"OpenAI GPT-4の料金体系について検索して\"\n" ++
  "• \"React vs Vue.js 比較情報を探して\"\n" ++
  "• \"今日の為替レートを調べて\"\n\n" ++
  "**🏗️ 統合例:**\n" ++
  "• \"最新のNext.jsについて調べて、その設定ファイルを作って\"\n" ++
  "• \"TypeScript設定のベストプラクティスを検索して、tsconfig.jsonを生成して\"\n"

/-- response_utils.get_mock_response: a None context becomes the empty
dict; the lowercased message is matched against fixed keyword groups for
help, search, create, copy, move and list replies; the list reply reads
currentPath and the fileList length from the context (raising exactly
where Python would on unsized values); any other message picks the
tick-th rotating acknowledgment. -/
def getMockResponse (message : String) (context : PyVal) (tick : Nat) :
    Except String MockResult := do
  let ctx := match context with | PyVal.none => PyVal.dict [] | c => c
  let cmd := pyLower message
  if strContains cmd "help" || strContains cmd "ヘルプ" then
    Except.ok ⟨mockHelpText, []⟩
  else if strContains cmd "検索" || strContains cmd "調べて" || strContains cmd "リサーチ" then
    Except.ok ⟨"Web検索を実行します。（デモモード: 検索API接続を確認してください）", []⟩
  else if strContains cmd "作成" || strContains cmd "create" then
    Except.ok ⟨"ファイル/フォルダ作成を実行します。（デモモード: API接続を確認してください）", []⟩
  else if strContains cmd "コピー" || strContains cmd "copy" then
    Except.ok ⟨"ファイルコピーを実行します。（デモモード: API接続を確認してください）", []⟩
  else if strContains cmd "移動" || strContains cmd "move" then
    Except.ok ⟨"ファイル移動を実行します。（デモモード: API接続を確認してください）", []⟩
  else if strContains cmd "一覧" || strContains cmd "list" then
    match ctx with
    | PyVal.dict kvs => do
        let fl ← pyLen ((dictLookup kvs "fileList").getD (PyVal.list []))
        Except.ok ⟨"現在のディレクトリ: " ++ ((dictLookup kvs "currentPath").getD (PyVal.str "/workspace")).pyStr ++
                   "\nファイル数: " ++ toString fl, []⟩
    | other =>
        Except.error ("AttributeError: " ++ pyTypeName other ++ " object has no attribute get")
  else
    Except.ok ⟨(mockResponses.get? (tick % mockResponses.length)).getD "", []⟩

/-! ## ResponseBuilder (src/server_pythonver/validation/response_builder.py)

Only build_error_response and its helpers are needed by the claims; the
error argument is captured by its str() text. -/

/-- ResponseBuilder._classify_error: first matching substring group of
the lowercased error text wins. -/
def classifyError (errText : String) : String :=
  let m := pyLower errText
  if strContains m "api_key" || strContains m "authentication" then "api_key_missing"
  else if strContains m "rate limit" || strContains m "429" then "rate_limit"
  else if strContains m "network" || strContains m "connection" || strContains m "fetch" then "network_error"
  else if strContains m "500" || strContains m "502" || strContains m "503" then "server_error"
  else "unknown"

/-- ResponseBuilder._build_error_message: the fallback message (or a
fixed apology when falsy), a classification-specific hint, and the
fallback notice. -/
def buildErrorMessage (fallbackMessage : String) (errText : String) : String :=
  let base := if fallbackMessage != "" then fallbackMessage
    else "申し訳ございません。処理中にエラーが発生しました。"
  let et := classifyError errText
  let withHint :=
    if et == "api_key_missing" then base ++ "\n\n🔑 APIキーが設定されていません。環境設定を確認してください。"
    else if et == "rate_limit" then base ++ "\n\n⏱️ API利用制限に達しました。しばらく待ってから再試行してください。"
    else if et == "network_error" then base ++ "\n\n🌐 ネットワークエラーが発生しました。接続を確認してください。"
    else if et == "server_error" then base ++ "\n\n🔧 サーバーエラーが発生しました。しばらく待ってから再試行してください。"
    else base ++ "\n\n⚠️ " ++ (if errText != "" then errText else "不明なエラーが発生しました。")
  withHint ++ "\n\n(フォールバック応答: API接続エラーのため)"

/-- The expression original_context.get("customPrompt", \x7b\x7d).get("enabled")
coerced to bool, as written in build_error_response and
_build_error_metadata: the default empty dict applies only when the key
is absent, so a customPrompt key present with value None (which the data
model allows) reaches .get on None and raises AttributeError. -/
def customPromptEnabledFlag (ctx : PyVal) : Except String Bool :=
  match ctx with
  | PyVal.dict kvs =>
      match (dictLookup kvs "customPrompt").getD (PyVal.dict []) with
      | PyVal.dict inner => Except.ok (pyTruthy ((dictLookup inner "enabled").getD PyVal.none))
      | other =>
          Except.error ("AttributeError: " ++ pyTypeName other ++ " object has no attribute get")
  | other => Except.error ("AttributeError: " ++ pyTypeName other ++ " object has no attribute get")

/-- The metadata record of _build_error_metadata. -/
structure ErrorMetadata where
  errorTime : String
  errorType : String
  errorMessage : String
  contextPresent : Bool
  customPromptUsed : Bool
  fallbackMode : Bool
  recovery : String

/-- ResponseBuilder._build_error_metadata. -/
def buildErrorMetadata (errText : String) (ctx : PyVal) (now : String) :
    Except String ErrorMetadata := do
  let cpu ← customPromptEnabledFlag ctx
  Except.ok ⟨now, classifyError errText,
    (if errText != "" then errText else "Unknown error"),
    pyTruthy ctx, cpu, true, "mock_response"⟩

/-- The error envelope assembled by build_error_response. -/
structure ErrorEnvelope where
  message : String
  commands : List PyVal
  provider : String
  model : String
  timestamp : String
  parseSuccess : Bool
  warning : Option String
  error : String
  errorType : String
  shouldSuggestNewChat : Bool
  customPromptUsed : Bool
  fallbackMode : Bool
  metadata : ErrorMetadata

/-- ResponseBuilder.build_error_response: fetch the offline fallback for
the original message, build the hinted error message, and assemble the
envelope — whose dict literal evaluates the customPromptUsed expression,
and whose metadata evaluates it again. -/
def buildErrorResponse (errText : String) (provider model : Option String)
    (originalMessage : String) (originalContext : PyVal) (tick : Nat) (now : String) :
    Except String ErrorEnvelope := do
  let fallbackResult ← getMockResponse originalMessage originalContext tick
  let message := buildErrorMessage fallbackResult.message errText
  let customPromptUsed ← customPromptEnabledFlag originalContext
  let metadata ← buildErrorMetadata errText originalContext now
  Except.ok ⟨message, fallbackResult.commands,
    pyArgOr provider "unknown", pyArgOr model "unknown", now,
    false, some "API接続に問題があります。設定を確認してください。",
    errText, classifyError errText, false, customPromptUsed, true, metadata⟩

/-! ## Lemmas about the validator -/

/-- Inversion for a successful statement sequence: both parts succeeded. -/
theorem pySeq_ok_inv {a : Type} {x : Except String Unit} {rest : Except String a} {b : a}
    (h : pySeq x rest = Except.ok b) : x = Except.ok () ∧ rest = Except.ok b := by
  cases x with
  | ok u => cases u; exact ⟨rfl, h⟩
  | error e => exact Except.noConfusion h

/-- Composition for a successful statement sequence. -/
theorem pySeq_ok_intro {a : Type} {x : Except String Unit} {rest : Except String a} {b : a}
    (h1 : x = Except.ok ()) (h2 : rest = Except.ok b) : pySeq x rest = Except.ok b := by
  rw [h1]; exact h2

/-- Injectivity of the PyVal string constructor, in contrapositive. -/
theorem pyValStr_ne (s t : String) (h : s ≠ t) : PyVal.str s ≠ PyVal.str t :=
  fun he => h (PyVal.str.inj he)

/-- validate only ever returns True: a successful result means every
check passed and the returned Boolean is true. -/
theorem validate_ok_elim (cmd : PyVal) (b : Bool) (h : validate cmd = Except.ok b) :
    validateSteps cmd = Except.ok () ∧ b = true := by
  unfold validate at h
  obtain ⟨h1, h2⟩ := pySeq_ok_inv h
  cases h2
  exact ⟨h1, rfl⟩

/-- A value other than the web_search string is not a search command. -/
theorem isSearchCommand_eq_false (v : PyVal) (h : v ≠ PyVal.str "web_search") :
    isSearchCommand v = false := by
  cases v <;> simp only [isSearchCommand]
  rename_i s
  by_cases hs : s = "web_search"
  · exact absurd (hs ▸ rfl) h
  · simp [hs]

/-- From a fully successful non-search validation, the path and batch
checks each succeeded. -/
theorem validateSteps_ok_nonsearch (cmd : PyVal)
    (hns : isSearchCommand (pyGet cmd "action") = false)
    (h : validateSteps cmd = Except.ok ()) :
    validatePaths cmd = Except.ok () ∧ validateBatchPaths cmd = Except.ok () := by
  unfold validateSteps at h
  obtain ⟨-, h⟩ := pySeq_ok_inv h
  obtain ⟨-, h⟩ := pySeq_ok_inv h
  obtain ⟨hbr, -⟩ := pySeq_ok_inv h
  rw [hns] at hbr
  simp only [Bool.false_eq_true, if_false] at hbr
  exact pySeq_ok_inv hbr

/-- From successful path checks, each individual field check passed. -/
theorem validatePaths_ok_elim (cmd : PyVal) (h : validatePaths cmd = Except.ok ()) :
    validatePathField cmd "path" = Except.ok () ∧
    validatePathField cmd "source" = Except.ok () ∧
    validatePathField cmd "destination" = Except.ok () := by
  unfold validatePaths at h
  obtain ⟨h1, h⟩ := pySeq_ok_inv h
  obtain ⟨h2, h3⟩ := pySeq_ok_inv h
  exact ⟨h1, h2, h3⟩

/-- A successful field check on a non-empty string value means the
single-path check accepted the string. -/
theorem validatePathField_ok_str (cmd : PyVal) (f s : String)
    (hv : pyGet cmd f = PyVal.str s) (hs : s ≠ "")
    (h : validatePathField cmd f = Except.ok ()) :
    validateSinglePathStr s f = Except.ok () := by
  unfold validatePathField at h
  rw [hv] at h
  have ht : pyTruthy (PyVal.str s) = true := by simp [pyTruthy, hs]
  rw [if_pos ht] at h
  simpa [validateSinglePath] using h

/-- What acceptance of a single path string means: no dangerous pattern
occurs in or starts the string, and it is non-blank after stripping. -/
theorem validateSinglePathStr_ok_elim (s f : String)
    (h : validateSinglePathStr s f = Except.ok ()) :
    (∀ pat ∈ dangerousPatterns, (strContains s pat || pyStartsWith s pat) = false) ∧
    pyStrip s ≠ "" := by
  unfold validateSinglePathStr at h
  cases hf : dangerousPatterns.find? (fun pat => strContains s pat || pyStartsWith s pat) with
  | some pat =>
      rw [hf] at h
      exact Except.noConfusion h
  | none =>
      rw [hf] at h
      constructor
      · intro pat hpat
        simpa using List.find?_eq_none.mp hf pat hpat
      · intro htrim
        simp [htrim] at h

/-- From successful batch checks, each batch field check passed. -/
theorem validateBatchPaths_ok_elim (cmd : PyVal) (h : validateBatchPaths cmd = Except.ok ()) :
    validateBatchField cmd "paths" = Except.ok () ∧
    validateBatchField cmd "sources" = Except.ok () := by
  unfold validateBatchPaths at h
  exact pySeq_ok_inv h

/-- A successful batch field check on a list value bounds its length by
the 100-entry cap. -/
theorem validateBatchField_ok_bound (cmd : PyVal) (f : String) (xs : List PyVal)
    (hv : pyGet cmd f = PyVal.list xs)
    (h : validateBatchField cmd f = Except.ok ()) : xs.length ≤ 100 := by
  by_cases hx : xs = []
  · subst hx; simp
  · unfold validateBatchField at h
    rw [hv] at h
    have ht : pyTruthy (PyVal.list xs) = true := by
      simp [pyTruthy, List.isEmpty_iff, hx]
    rw [if_pos ht] at h
    replace h : validateBatchListField f xs = Except.ok () := h
    unfold validateBatchListField at h
    obtain ⟨-, h⟩ := pySeq_ok_inv h
    obtain ⟨-, h⟩ := pySeq_ok_inv h
    by_contra hlen
    push_neg at hlen
    rw [if_pos hlen] at h
    exact Except.noConfusion h

/-! ## Claim theorems: the command validator -/

/-- C5: for every non-web_search command in which any of the path-bearing
fields path, source or destination is a string containing the substring
"..", validate raises (and hence never returns true): a path-traversal
command is never accepted. -/
theorem validate_rejects_traversal (cmd : PyVal) (f s : String)
    (hns : pyGet cmd "action" ≠ PyVal.str "web_search")
    (hf : f ∈ (["path", "source", "destination"] : List String))
    (hv : pyGet cmd f = PyVal.str s)
    (hdd : strContains s ".." = true) :
    ∃ msg, validate cmd = Except.error msg := by
  cases hval : validate cmd with
  | error msg => exact ⟨msg, rfl⟩
  | ok b =>
      exfalso
      obtain ⟨hsteps, -⟩ := validate_ok_elim cmd b hval
      obtain ⟨hp, -⟩ := validateSteps_ok_nonsearch cmd (isSearchCommand_eq_false _ hns) hsteps
      have hs : s ≠ "" := by
        intro he
        subst he
        exact absurd hdd (by decide)
      obtain ⟨h1, h2, h3⟩ := validatePaths_ok_elim cmd hp
      have hfield : validateSinglePathStr s f = Except.ok () := by
        simp only [List.mem_cons, List.not_mem_nil, or_false] at hf
        rcases hf with rfl | rfl | rfl
        · exact validatePathField_ok_str cmd _ s hv hs h1
        · exact validatePathField_ok_str cmd _ s hv hs h2
        · exact validatePathField_ok_str cmd _ s hv hs h3
      obtain ⟨hpat, -⟩ := validateSinglePathStr_ok_elim s f hfield
      have hdot := hpat ".." (by decide)
      rw [hdd] at hdot
      simp at hdot

/-- Witness for C5 at the concrete traversal command of the claim. -/
theorem validate_rejects_traversal_witness :
    strContains "../secret" ".." = true ∧
    (∃ msg, validate (PyVal.dict [("action", PyVal.str "read_file"),
      ("path", PyVal.str "../secret")]) = Except.error msg) :=
  ⟨by decide,
   validate_rejects_traversal _ "path" "../secret"
     (pyValStr_ne _ _ (by decide)) (by decide) rfl (by decide)⟩

/-- C7 (amended): for every non-web_search command in which a
path-bearing field is present with a non-empty, whitespace-only string
value, validate raises, also for actions for which the field is not
required; a field present with the empty string is skipped by the
per-path check (it is falsy), so the empty string raises only through the
required-field check when the field is required for the action. -/
theorem validate_rejects_blank_path (cmd : PyVal) (f s : String)
    (hns : pyGet cmd "action" ≠ PyVal.str "web_search")
    (hf : f ∈ (["path", "source", "destination"] : List String))
    (hv : pyGet cmd f = PyVal.str s)
    (hne : s ≠ "") (htrim : pyStrip s = "") :
    ∃ msg, validate cmd = Except.error msg := by
  cases hval : validate cmd with
  | error msg => exact ⟨msg, rfl⟩
  | ok b =>
      exfalso
      obtain ⟨hsteps, -⟩ := validate_ok_elim cmd b hval
      obtain ⟨hp, -⟩ := validateSteps_ok_nonsearch cmd (isSearchCommand_eq_false _ hns) hsteps
      obtain ⟨h1, h2, h3⟩ := validatePaths_ok_elim cmd hp
      have hfield : validateSinglePathStr s f = Except.ok () := by
        simp only [List.mem_cons, List.not_mem_nil, or_false] at hf
        rcases hf with rfl | rfl | rfl
        · exact validatePathField_ok_str cmd _ s hv hne h1
        · exact validatePathField_ok_str cmd _ s hv hne h2
        · exact validatePathField_ok_str cmd _ s hv hne h3
      obtain ⟨-, htr⟩ := validateSinglePathStr_ok_elim s f hfield
      exact htr htrim

/-- Witness for C7 at a whitespace-only path on an action that does not
require the field. -/
theorem validate_rejects_blank_path_witness :
    pyStrip " " = "" ∧
    (∃ msg, validate (PyVal.dict [("action", PyVal.str "list_files"),
      ("path", PyVal.str " ")]) = Except.error msg) :=
  ⟨by decide,
   validate_rejects_blank_path _ "path" " "
     (pyValStr_ne _ _ (by decide)) (by decide) rfl (by decide) (by decide)⟩

/-- Counterexample for C7 as stated: a list_files command with a present
but empty path field is accepted, not rejected, because the empty string
is falsy and the per-path loop skips falsy fields; the claim asserts
every present empty-or-blank path-bearing field raises. -/
theorem validate_accepts_empty_optional_path :
    pyStrip "" = "" ∧
    validate (PyVal.dict [("action", PyVal.str "list_files"),
      ("path", PyVal.str "")]) = Except.ok true :=
  ⟨rfl, rfl⟩

/-- C6 (amended): for every non-web_search command whose batch field
(paths or sources) is a list with more than 100 entries, validate raises;
and a non-web_search batch command either of whose batch fields (paths or
sources) has exactly 100 entries that each pass path validation, while
the other batch field's check and the remaining checks all succeed,
validates to true — oversized batches are rejected, never truncated.
(For web_search commands the batch checks are skipped entirely, see the
counterexample.) -/
theorem validate_enforces_batch_cap :
    (∀ (cmd : PyVal) (f : String) (xs : List PyVal),
      pyGet cmd "action" ≠ PyVal.str "web_search" →
      f ∈ (["paths", "sources"] : List String) →
      pyGet cmd f = PyVal.list xs →
      xs.length > 100 →
      ∃ msg, validate cmd = Except.error msg) ∧
    (∀ (kvs : List (String × PyVal)) (f : String) (xs : List PyVal),
      f ∈ (["paths", "sources"] : List String) →
      isSearchCommand (pyGet (PyVal.dict kvs) "action") = false →
      validateAction (pyGet (PyVal.dict kvs) "action") = Except.ok () →
      validatePaths (PyVal.dict kvs) = Except.ok () →
      pyGet (PyVal.dict kvs) f = PyVal.list xs →
      xs.length = 100 →
      validateBatchElems f 0 xs = Except.ok () →
      (∀ g ∈ (["paths", "sources"] : List String), g ≠ f →
        validateBatchField (PyVal.dict kvs) g = Except.ok ()) →
      validateRequiredFields (PyVal.dict kvs) = Except.ok () →
      checkDangerousOperations (PyVal.dict kvs) = Except.ok () →
      validate (PyVal.dict kvs) = Except.ok true) := by
  constructor
  · intro cmd f xs hns hf hv hlen
    cases hval : validate cmd with
    | error msg => exact ⟨msg, rfl⟩
    | ok b =>
        exfalso
        obtain ⟨hsteps, -⟩ := validate_ok_elim cmd b hval
        obtain ⟨-, hb⟩ := validateSteps_ok_nonsearch cmd (isSearchCommand_eq_false _ hns) hsteps
        obtain ⟨hbp, hbs⟩ := validateBatchPaths_ok_elim cmd hb
        have hle : xs.length ≤ 100 := by
          simp only [List.mem_cons, List.not_mem_nil, or_false] at hf
          rcases hf with rfl | rfl
          · exact validateBatchField_ok_bound cmd _ xs hv hbp
          · exact validateBatchField_ok_bound cmd _ xs hv hbs
        omega
  · intro kvs f xs hfmem hns ha hp hv hlen helems hother hreq hdang
    have hne : xs ≠ [] := by
      intro h0
      rw [h0] at hlen
      simp at hlen
    have hbf : validateBatchField (PyVal.dict kvs) f = Except.ok () := by
      unfold validateBatchField
      rw [hv]
      have ht : pyTruthy (PyVal.list xs) = true := by
        simp [pyTruthy, List.isEmpty_iff, hne]
      rw [if_pos ht]
      show validateBatchListField f xs = Except.ok ()
      unfold validateBatchListField
      have hie : xs.isEmpty = false := by
        simp [List.isEmpty_iff, hne]
      rw [hie]
      simp only [Bool.false_eq_true, if_false]
      exact pySeq_ok_intro rfl (pySeq_ok_intro helems (by rw [if_neg (by omega)]))
    have hbatch : validateBatchPaths (PyVal.dict kvs) = Except.ok () := by
      unfold validateBatchPaths
      simp only [List.mem_cons, List.not_mem_nil, or_false] at hfmem
      rcases hfmem with rfl | rfl
      · exact pySeq_ok_intro hbf (hother "sources" (by simp) (by decide))
      · exact pySeq_ok_intro (hother "paths" (by simp) (by decide)) hbf
    have hIf : (if isSearchCommand (pyGet (PyVal.dict kvs) "action") = true then
        validateWebSearchCommand (PyVal.dict kvs)
      else pySeq (validatePaths (PyVal.dict kvs)) (validateBatchPaths (PyVal.dict kvs))) =
        Except.ok () := by
      rw [hns]
      simp only [Bool.false_eq_true, if_false]
      exact pySeq_ok_intro hp hbatch
    have hsteps : validateSteps (PyVal.dict kvs) = Except.ok () := by
      unfold validateSteps
      exact pySeq_ok_intro rfl (pySeq_ok_intro ha (pySeq_ok_intro hIf
        (pySeq_ok_intro hreq hdang)))
    unfold validate
    exact pySeq_ok_intro hsteps rfl

/-- Witness for C6: a batch_delete with 101 valid paths is rejected,
while the same command with exactly 100 paths is accepted, and a
batch_copy with exactly 100 sources and a valid destination is
accepted. -/
theorem validate_enforces_batch_cap_witness :
    (∃ msg, validate (PyVal.dict [("action", PyVal.str "batch_delete"),
      ("paths", PyVal.list (List.replicate 101 (PyVal.str "a.txt")))]) = Except.error msg) ∧
    validate (PyVal.dict [("action", PyVal.str "batch_delete"),
      ("paths", PyVal.list (List.replicate 100 (PyVal.str "a.txt")))]) = Except.ok true ∧
    validate (PyVal.dict [("action", PyVal.str "batch_copy"),
      ("sources", PyVal.list (List.replicate 100 (PyVal.str "a.txt"))),
      ("destination", PyVal.str "dest")]) = Except.ok true :=
  ⟨validate_enforces_batch_cap.1 _ "paths" (List.replicate 101 (PyVal.str "a.txt"))
     (pyValStr_ne _ _ (by decide)) (by decide) rfl (by decide),
   validate_enforces_batch_cap.2 _ "paths" (List.replicate 100 (PyVal.str "a.txt"))
     (by decide) rfl rfl rfl rfl (by decide) rfl
     (by
       intro g hg hne
       simp only [List.mem_cons, List.not_mem_nil, or_false] at hg
       rcases hg with rfl | rfl
       · exact absurd rfl hne
       · rfl)
     rfl rfl,
   validate_enforces_batch_cap.2 _ "sources" (List.replicate 100 (PyVal.str "a.txt"))
     (by decide) rfl rfl rfl rfl (by decide) rfl
     (by
       intro g hg hne
       simp only [List.mem_cons, List.not_mem_nil, or_false] at hg
       rcases hg with rfl | rfl
       · rfl
       · exact absurd rfl hne)
     rfl rfl⟩

/-- Counterexample for C6 as stated: the claim quantifies over every
command with an oversized batch field, but a web_search command carrying
a 101-entry paths field is accepted, because the batch checks run only on
the non-search branch. -/
theorem validate_websearch_batch_not_capped :
    pyGet (PyVal.dict [("action", PyVal.str "web_search"), ("query", PyVal.str "x"),
      ("paths", PyVal.list (List.replicate 101 (PyVal.str "a.txt")))]) "paths" =
      PyVal.list (List.replicate 101 (PyVal.str "a.txt")) ∧
    (List.replicate 101 (PyVal.str "a.txt")).length > 100 ∧
    validate (PyVal.dict [("action", PyVal.str "web_search"), ("query", PyVal.str "x"),
      ("paths", PyVal.list (List.replicate 101 (PyVal.str "a.txt")))]) = Except.ok true :=
  ⟨rfl, by decide, rfl⟩

/-- C9: validate is a pure predicate on its input — it never returns
False (it either fully accepts with True or raises), and validating the
same valid command twice yields True both times.  The embedding is a
pure function precisely because the source never writes to the command:
every access in CommandValidator is a read (.get, indexing, len,
membership), so input mutation is impossible and determinism gives
idempotence. -/
theorem validate_is_pure_predicate (cmd : PyVal) :
    (∀ b, validate cmd = Except.ok b → b = true) ∧
    (validate cmd = Except.ok true →
      validate cmd = Except.ok true ∧ validate cmd = Except.ok true) :=
  ⟨fun b h => (validate_ok_elim cmd b h).2, fun h => ⟨h, h⟩⟩

/-- Witness for C9 at a concrete valid command: both validations yield
True. -/
theorem validate_is_pure_predicate_witness :
    validate (PyVal.dict [("action", PyVal.str "read_file"),
      ("path", PyVal.str "notes.txt")]) = Except.ok true ∧
    validate (PyVal.dict [("action", PyVal.str "read_file"),
      ("path", PyVal.str "notes.txt")]) = Except.ok true :=
  (validate_is_pure_predicate _).2 rfl

/-! ## Claim theorems: the conversation manager -/

/-- Dropping a strict initial segment does not change the last element. -/
theorem getLast?_drop_of_lt {α : Type} (l : List α) (n : Nat) (h : n < l.length) :
    (l.drop n).getLast? = l.getLast? := by
  rw [List.getLast?_eq_getElem?, List.getLast?_eq_getElem?, List.getElem?_drop,
    List.length_drop]
  congr 1
  omega

/-- The context-switch heuristic fires exactly on histories of at least
three exchanges whose last user text, lowercased, contains a keyword. -/
theorem detectContextSwitch_iff (h : List Exchange) :
    detectContextSwitch h = true ↔
      (3 ≤ h.length ∧ contextSwitchKeywords.any (fun k =>
        strContains (((h.getLast?).map (fun e => pyLower (exGet e.user))).getD "") k) = true) := by
  unfold detectContextSwitch
  by_cases hlen : h.length < 3
  · simp only [if_pos hlen, Bool.false_eq_true, false_iff]
    intro hc
    omega
  · rw [if_neg hlen]
    have harg : ((((h.drop (h.length - 3)).map (fun e => pyLower (exGet e.user))).getLast?).getD "") =
        (((h.getLast?).map (fun e => pyLower (exGet e.user))).getD "") := by
      rw [List.getLast?_map, getLast?_drop_of_lt _ _ (by omega)]
    rw [harg]
    simp only [iff_and_self]
    intro
    omega

/-- C4 (amended): should_suggest_new_chat returns true exactly when the
history length reaches the max item count, or the total history character
length reaches the max length cap, or the history has at least three
exchanges and the most recent exchange's user text, lowercased, contains
one of the fixed context-switch keywords.  (The heuristic never fires on
histories shorter than three exchanges; see the counterexample.) -/
theorem shouldSuggestNewChat_characterization (cfg : CMConfig) (ctx : SuggestCtx) :
    shouldSuggestNewChat cfg ctx = true ↔
      ((ctx.conversationHistory.getD []).length ≥ cfg.maxHistoryItems ∨
       calcTotalHistoryLength (ctx.conversationHistory.getD []) ≥ cfg.maxHistoryLength ∨
       (3 ≤ (ctx.conversationHistory.getD []).length ∧
        contextSwitchKeywords.any (fun k =>
          strContains ((((ctx.conversationHistory.getD []).getLast?).map
            (fun e => pyLower (exGet e.user))).getD "") k) = true)) := by
  simp only [shouldSuggestNewChat]
  by_cases h1 : (ctx.conversationHistory.getD []).length ≥ cfg.maxHistoryItems
  · simp [h1]
  · by_cases h2 : calcTotalHistoryLength (ctx.conversationHistory.getD []) ≥ cfg.maxHistoryLength
    · simp [h1, h2]
    · simp [h1, h2, detectContextSwitch_iff]

/-- Counterexample for C4 as stated: a single-exchange history whose user
text is exactly the keyword "help" does not make should_suggest_new_chat
return true, because the context-switch heuristic requires at least three
exchanges; the claim asserts it returns true for histories of any
length. -/
theorem shouldSuggestNewChat_short_history_counterexample :
    strContains (pyLower (exGet (some "help"))) "help" = true ∧
    "help" ∈ contextSwitchKeywords ∧
    shouldSuggestNewChat defaultCMConfig
      ⟨some [⟨some "help", some "a reply!", Option.none⟩]⟩ = false :=
  ⟨by decide, by decide, by decide⟩

/-- Processing a history whose tail starts with an exchange whose dedup
key is already covered — either seen, or matched by an earlier entry —
drops that exchange and continues unchanged. -/
theorem removeDuplicateAux_drops_matching (e2 : Exchange) (l2 : List Exchange)
    (l1 : List Exchange) : ∀ (seen : List String),
    (seen.contains (historyKey e2) = true ∨ ∃ e1 ∈ l1, historyKey e1 = historyKey e2) →
    removeDuplicateAux seen (l1 ++ e2 :: l2) = removeDuplicateAux seen (l1 ++ l2) := by
  induction l1 with
  | nil =>
      intro seen h
      have hc : seen.contains (historyKey e2) = true := by
        rcases h with hc | ⟨e1, he, -⟩
        · exact hc
        · simp at he
      simp only [List.nil_append]
      rw [show removeDuplicateAux seen (e2 :: l2) =
        (if seen.contains (historyKey e2) = true then removeDuplicateAux seen l2
         else e2 :: removeDuplicateAux (historyKey e2 :: seen) l2) from rfl, if_pos hc]
  | cons e l1 ih =>
      intro seen h
      simp only [List.cons_append]
      unfold removeDuplicateAux
      by_cases hce : seen.contains (historyKey e) = true
      · rw [if_pos hce, if_pos hce]
        apply ih
        rcases h with hc | ⟨e1, he, hk⟩
        · exact Or.inl hc
        · rcases List.mem_cons.mp he with rfl | hmem
          · exact Or.inl (by rw [← hk]; exact hce)
          · exact Or.inr ⟨e1, hmem, hk⟩
      · rw [if_neg hce, if_neg hce]
        congr 1
        apply ih
        rcases h with hc | ⟨e1, he, hk⟩
        · exact Or.inl (by rw [List.contains_cons, hc, Bool.or_true])
        · rcases List.mem_cons.mp he with rfl | hmem
          · exact Or.inl (by rw [List.contains_cons, hk]; simp)
          · exact Or.inr ⟨e1, hmem, hk⟩

/-- C10: the duplicate-removal step keys each exchange by the user text
and ai text joined with an underscore, so any later exchange whose joined
key equals that of an earlier one is dropped from the history — even when
the two exchanges differ. -/
theorem removeDuplicateHistory_drops_key_collisions (l1 l2 : List Exchange) (e1 e2 : Exchange)
    (h1 : e1 ∈ l1) (hk : historyKey e1 = historyKey e2) :
    removeDuplicateHistory (l1 ++ e2 :: l2) = removeDuplicateHistory (l1 ++ l2) := by
  unfold removeDuplicateHistory
  exact removeDuplicateAux_drops_matching e2 l2 l1 [] (Or.inr ⟨e1, h1, hk⟩)

/-- Witness for C10 at the claim's example: the exchanges (a_b, c) and
(a, b_c) differ, their joined keys coincide, and the later one is
dropped. -/
theorem removeDuplicateHistory_drops_key_collisions_witness :
    historyKey ⟨some "a_b", some "c", Option.none⟩ =
      historyKey ⟨some "a", some "b_c", Option.none⟩ ∧
    (⟨some "a_b", some "c", Option.none⟩ : Exchange) ≠ ⟨some "a", some "b_c", Option.none⟩ ∧
    removeDuplicateHistory [⟨some "a_b", some "c", Option.none⟩,
      ⟨some "a", some "b_c", Option.none⟩] =
      removeDuplicateHistory [⟨some "a_b", some "c", Option.none⟩] :=
  ⟨by decide, by decide,
   removeDuplicateHistory_drops_key_collisions
     [⟨some "a_b", some "c", Option.none⟩] []
     ⟨some "a_b", some "c", Option.none⟩ ⟨some "a", some "b_c", Option.none⟩
     (by simp) (by decide)⟩

/-! ## Claim theorems: the agent dispatcher -/

/-- C1: dispatch is total over every behaviour of the injected generation
client — its body never hands an exception to the outer handler, so every
call returns a DispatchResult record — and when the main generation call
raises, the returned result carries that exception text in its error
field and an empty command list. -/
theorem dispatch_total_and_catches_generation_errors
    (userMessage : String) (ctx : DispatchCtx) (provider model : Option String)
    (selResp mainResp : Except String String) (e : String) :
    (∃ r, dispatchBody userMessage ctx provider model selResp mainResp = Except.ok r) ∧
    (dispatch userMessage ctx provider model selResp (Except.error e)).error = some e ∧
    (dispatch userMessage ctx provider model selResp (Except.error e)).commands = [] := by
  refine ⟨⟨dispatchCore userMessage ctx provider model selResp mainResp, rfl⟩, ?_, ?_⟩ <;>
    simp [dispatch, dispatchBody, dispatchCore, validateCommandsLoop]

/-- On a decode failure the parsing step reports no commands, a failed
parse, the fixed warning, and the raw completion as the message. -/
theorem parseLLM_decode_failure (s : String)
    (h : jsonParse (extractJsonContent s) = Option.none) :
    parseLLMResponseForCommands s =
      ⟨[], false, some "LLM応答のJSONパースに失敗しました", PyVal.str s⟩ := by
  simp only [parseLLMResponseForCommands]
  rw [h]

/-- The captured message equal to the raw completion yields the raw
completion whether or not it is empty. -/
theorem dispatchMessage_str_self (s : String) :
    dispatchMessage (some (PyVal.str s)) false Option.none s = PyVal.str s := by
  by_cases hs : s = ""
  · subst hs; simp [dispatchMessage, pyTruthy, errTruthy]
  · simp [dispatchMessage, pyTruthy, errTruthy, hs]

/-- C8: for a selected agent other than the general assistant and a
completion whose (fence-stripped) content is not decodable as JSON,
dispatch yields an empty command list, a failed parse, the fixed non-null
decode warning, and the raw completion as the fallback message. -/
theorem dispatch_flags_undecodable_completion (userMessage : String) (ctx : DispatchCtx)
    (provider model : Option String) (selResp : Except String String) (s : String)
    (hAgent : selectAgentWithLLM selResp ≠ AgentKey.generalAssistant)
    (hDecode : jsonParse (extractJsonContent s) = Option.none) :
    (dispatch userMessage ctx provider model selResp (Except.ok s)).commands = [] ∧
    (dispatch userMessage ctx provider model selResp (Except.ok s)).parseSuccess = false ∧
    (dispatch userMessage ctx provider model selResp (Except.ok s)).warning =
      some "LLM応答のJSONパースに失敗しました" ∧
    (dispatch userMessage ctx provider model selResp (Except.ok s)).message = PyVal.str s := by
  have hname : (agentName (selectAgentWithLLM selResp) == "汎用アシスタント") = false := by
    cases ha : selectAgentWithLLM selResp with
    | fileExpert => decide
    | webSearchExpert => decide
    | generalAssistant => exact absurd ha hAgent
  have hparse := parseLLM_decode_failure s hDecode
  refine ⟨?_, ?_, ?_, ?_⟩ <;>
    simp [dispatch, dispatchBody, dispatchCore, hname, hparse, validateCommandsLoop,
      dispatchMessage_str_self]

/-- Witness for C8 at the claim's concrete completion for a file-capable
agent. -/
theorem dispatch_flags_undecodable_completion_witness :
    (dispatch "ファイルを作成して" {} Option.none Option.none (Except.ok "file_expert")
      (Except.ok "not json at all")).commands = [] ∧
    (dispatch "ファイルを作成して" {} Option.none Option.none (Except.ok "file_expert")
      (Except.ok "not json at all")).parseSuccess = false ∧
    (dispatch "ファイルを作成して" {} Option.none Option.none (Except.ok "file_expert")
      (Except.ok "not json at all")).warning = some "LLM応答のJSONパースに失敗しました" ∧
    (dispatch "ファイルを作成して" {} Option.none Option.none (Except.ok "file_expert")
      (Except.ok "not json at all")).message = PyVal.str "not json at all" :=
  dispatch_flags_undecodable_completion "ファイルを作成して" {} Option.none Option.none
    (Except.ok "file_expert") "not json at all" (by decide) rfl

/-! ## Claim theorems: code bugs in prepare_context and build_error_response -/

/-- C2: prepare_context crashes on the very contexts the claim covers.
On the empty context dict, the customPrompt key is set to None by the
normalization step and the metadata computation then calls .get on None,
raising AttributeError; and even with a customPrompt supplied, the
metadata size computation calls len() on the default None currentFile,
raising TypeError — so prepare_context never returns normally for a
context that omits these fields, contradicting the claim (and the spec,
which fixes None-valued defaults for currentFile/openFileInfo and
requires the metadata computation to succeed on them). -/
theorem prepareContext_raises_on_default_context :
    prepareContext defaultCMConfig {} "t0" =
      Except.error "AttributeError: NoneType object has no attribute get" ∧
    prepareContext defaultCMConfig
      { customPrompt := some (PyVal.dict [("enabled", PyVal.bool true)]) } "t0" =
      Except.error "TypeError: object of type NoneType has no len()" :=
  ⟨rfl, rfl⟩

/-- C3: build_error_response raises AttributeError when the original
context carries a customPrompt key whose value is None — a context shape
the data model explicitly allows — because the dict-literal expression
.get("customPrompt", ...).get("enabled") only substitutes the default for
an absent key, not for a null value; when the key is absent the call
succeeds and the envelope does carry parse_success=false and
fallback_mode=true. -/
theorem buildErrorResponse_raises_on_null_custom_prompt :
    buildErrorResponse "boom" (some "gemini") (some "gemini-1.5-flash") "hi"
      (PyVal.dict [("customPrompt", PyVal.none)]) 0 "t0" =
      Except.error "AttributeError: NoneType object has no attribute get" ∧
    (buildErrorResponse "boom" (some "gemini") (some "gemini-1.5-flash") "hi"
      (PyVal.dict []) 0 "t0").map (fun r => (r.parseSuccess, r.fallbackMode)) =
      Except.ok (false, true) :=
  ⟨rfl, rfl⟩
